import Mathlib

/-!
Verification of the batch-scraping worker core of the `amazon-scrapper`
repository: the job state machine (`jobManager`), the work-item store
(`upcQueue`), the result store (`resultStorage`), the error classifier and
retry policy (`errorHandler`), the HTTP fetch wrapper (`httpClient`), the
search fallback logic (`searchScraper`), and the sequential worker loop
(`worker`).

Each definition is a shallow embedding of the corresponding JavaScript
function.  External collaborators (the HTTP transport, the HTML parsers)
are modelled as oracle parameters: functions supplied by the environment
that deliver their observable results.  Wall-clock timestamps are modelled
as an abstract `now : Nat` supplied by the caller, and sleep / delay calls
are elided (they only suspend execution and return no data).
-/

/-! ## Basic string machinery

The JS code classifies pages with `String.prototype.includes` after
`toLowerCase`, and validates brands / UPCs with regex-based normalizers.
We model JS strings as `String` and implement the exact substring and
normalization semantics over `List Char`.
-/

/-- `needle` occurs as a contiguous sublist of the list: the model of
JS `hay.includes(needle)` (over char lists). -/
def includesAux (needle : List Char) : List Char → Bool
  | [] => needle.isEmpty
  | c :: rest => List.isPrefixOf needle (c :: rest) || includesAux needle rest

/-- JS `hay.includes(needle)`. -/
def strIncludes (hay needle : String) : Bool :=
  includesAux needle.toList hay.toList

/-- JS `s.toLowerCase()` (ASCII, which is all the source compares). -/
def strToLower (s : String) : String :=
  String.mk (s.toList.map Char.toLower)

/-- Model of the JS `\s` whitespace class as used by the normalizers. -/
def isJsSpace (c : Char) : Bool :=
  c = ' ' || c = '\t' || c = '\n' || c = '\r'

/-- JS `s.trim()`: strip leading and trailing whitespace. -/
def trimChars (l : List Char) : List Char :=
  ((l.dropWhile isJsSpace).reverse.dropWhile isJsSpace).reverse

/-- Collapse every maximal run of whitespace to a single space:
JS `s.replace(/\s+/g, ' ')`. -/
def collapseSpaces : List Char → List Char
  | [] => []
  | [c] => [if isJsSpace c then ' ' else c]
  | c1 :: c2 :: rest =>
    if isJsSpace c1 && isJsSpace c2 then collapseSpaces (c2 :: rest)
    else (if isJsSpace c1 then ' ' else c1) :: collapseSpaces (c2 :: rest)

/-- `normalizeBrandName` (validator.js): lowercase, drop characters outside
`[a-z0-9\s]`, collapse whitespace, trim. -/
def normalizeBrandName (brand : String) : String :=
  let lowered := brand.toList.map Char.toLower
  let kept := lowered.filter fun c =>
    (('a' ≤ c && c ≤ 'z') || ('0' ≤ c && c ≤ '9') || isJsSpace c)
  String.mk (trimChars (collapseSpaces kept))

/-- `normalizeUpc` (validator.js): keep only digit characters
(JS `String(upc).replace(/\D/g, '')`). -/
def normalizeUpc (upc : String) : String :=
  String.mk (upc.toList.filter Char.isDigit)

/-- `validateBrand` (validator.js).  A missing or empty brand on either
side is falsy in JS and yields `false`; otherwise the normalized scraped
brand must contain the normalized input brand. -/
def validateBrand (scrapedBrand : Option String) (inputBrand : String) : Bool :=
  match scrapedBrand with
  | none => false
  | some s =>
    if s = "" || inputBrand = "" then false
    else strIncludes (normalizeBrandName s) (normalizeBrandName inputBrand)

/-- `validateUpc` (validator.js): containment of the digit-only input code
in the digit-only scraped code, with falsy guards. -/
def validateUpc (scrapedUpc : Option String) (inputUpc : String) : Bool :=
  match scrapedUpc with
  | none => false
  | some s =>
    if s = "" || inputUpc = "" then false
    else strIncludes (normalizeUpc s) (normalizeUpc inputUpc)

/-! ## Error classifier and retry policy (errorHandler.js) -/

/-- The error taxonomy of `ERROR_TYPES`. -/
inductive ErrorType
  | RATE_LIMITED
  | SERVICE_UNAVAILABLE
  | CAPTCHA
  | BLOCKED
  | NETWORK
  | PARSE
  | NOT_FOUND
  | UNKNOWN
  deriving DecidableEq

/-- One entry of `RETRY_STRATEGIES`. -/
structure RetryStrategy where
  maxRetries : Nat
  baseDelay : Nat
  multiplier : Nat
  maxDelay : Nat
  deriving DecidableEq

/-- `RETRY_STRATEGIES`: the four error kinds that carry a retry policy.
The CAPTCHA base / ceiling use the config defaults
(`captchaPauseMin = 1800000`, `captchaPauseMax = 3600000`). -/
def retryStrategy : ErrorType → Option RetryStrategy
  | ErrorType.RATE_LIMITED => some ⟨3, 30000, 2, 300000⟩
  | ErrorType.SERVICE_UNAVAILABLE => some ⟨3, 10000, 2, 60000⟩
  | ErrorType.NETWORK => some ⟨3, 5000, 2, 30000⟩
  | ErrorType.CAPTCHA => some ⟨1, 1800000, 1, 3600000⟩
  | _ => none

/-- The shape handed to `detectErrorType`: an HTTP-ish response or a
caught exception (axios errors carry `code` and `message`). -/
structure ErrResponse where
  status : Option Nat := none
  data : Option String := none
  code : Option String := none
  message : Option String := none
  deriving DecidableEq

/-- `isCaptchaResponse` (errorHandler.js): case-insensitive literal
substring match against the known challenge-page markers. -/
def isCaptchaResponse (html : String) : Bool :=
  [ "Type the characters you see in this image",
    "Enter the characters you see below",
    "Sorry, we just need to make sure you\x27re not a robot",
    "api-services-support@amazon.com",
    "To discuss automated access to Amazon data",
    "/captcha/",
    "captcha-delivery" ].any fun ind =>
      strIncludes (strToLower html) (strToLower ind)

/-- `isBlockedResponse` (errorHandler.js). -/
def isBlockedResponse (html : String) : Bool :=
  [ "Your request has been blocked",
    "Access Denied",
    "Request blocked",
    "automated access",
    "unusual traffic" ].any fun ind =>
      strIncludes (strToLower html) (strToLower ind)

/-- `detectErrorType` (errorHandler.js).  The body checks run only when
`response.data` is a non-empty (truthy) string; when neither body check
fires, control falls through to the transport-code checks. -/
def detectErrorType (r : ErrResponse) : ErrorType :=
  if r.status = some 429 then ErrorType.RATE_LIMITED
  else if r.status = some 503 then ErrorType.SERVICE_UNAVAILABLE
  else if r.status = some 404 then ErrorType.NOT_FOUND
  else if r.data.getD "" ≠ "" && isCaptchaResponse (r.data.getD "") then ErrorType.CAPTCHA
  else if r.data.getD "" ≠ "" && isBlockedResponse (r.data.getD "") then ErrorType.BLOCKED
  else if r.code = some "ECONNREFUSED" || r.code = some "ETIMEDOUT" ||
          r.code = some "ENOTFOUND" || r.code = some "ECONNRESET" then ErrorType.NETWORK
  else ErrorType.UNKNOWN

/-- `calculateRetryDelay` (errorHandler.js).  The jitter
(`Math.random() * 1000`) is passed in explicitly; the caller guarantees
`0 ≤ jitter < 1000`.  Delays are rationals since jitter is a JS float. -/
def calculateRetryDelay (errorType : ErrorType) (attempt : Nat) (jitter : ℚ) : ℚ :=
  match retryStrategy errorType with
  | none => 5000
  | some s => min ((s.baseDelay : ℚ) * (s.multiplier : ℚ) ^ attempt + jitter) (s.maxDelay : ℚ)

/-- `isRetryable` (errorHandler.js). -/
def isRetryable (errorType : ErrorType) (attempt : Nat) : Bool :=
  match retryStrategy errorType with
  | none => false
  | some s => attempt < s.maxRetries

/-- The record returned by `handleScrapingError`. -/
structure ErrorInfo where
  shouldRetry : Bool
  delay : ℚ
  errorType : ErrorType
  message : String
  action : String
  attempt : Nat
  deriving DecidableEq

/-- The per-kind message of `handleScrapingError`. -/
def errorKindMessage (r : ErrResponse) : ErrorType → String
  | ErrorType.RATE_LIMITED => "Rate limited by Amazon. Will retry with backoff."
  | ErrorType.SERVICE_UNAVAILABLE => "Amazon service temporarily unavailable."
  | ErrorType.CAPTCHA => "CAPTCHA detected. Pausing job for extended period."
  | ErrorType.BLOCKED => "Access blocked by Amazon."
  | ErrorType.NETWORK => "Network error occurred."
  | ErrorType.NOT_FOUND => "Page not found."
  | _ => (r.message).getD "Unknown error occurred."

/-- The per-kind action of `handleScrapingError`. -/
def errorKindAction (shouldRetry : Bool) : ErrorType → String
  | ErrorType.RATE_LIMITED => if shouldRetry then "RETRY" else "PAUSE_JOB"
  | ErrorType.SERVICE_UNAVAILABLE => if shouldRetry then "RETRY" else "FAIL"
  | ErrorType.CAPTCHA => "PAUSE_JOB"
  | ErrorType.BLOCKED => "PAUSE_JOB"
  | ErrorType.NETWORK => if shouldRetry then "RETRY" else "FAIL"
  | ErrorType.NOT_FOUND => "SKIP"
  | _ => "FAIL"

/-- `handleScrapingError` (errorHandler.js).  The `jitter` parameter feeds
`calculateRetryDelay`; the worker only ever uses `errorType` and
`shouldRetry` for control flow (`delay` is slept on, which is elided), so
the embedding of the worker calls this with jitter 0. -/
def handleScrapingError (e : ErrResponse) (attempt : Nat) (jitter : ℚ) : ErrorInfo :=
  let errorType := detectErrorType e
  let shouldRetry := isRetryable errorType attempt
  { shouldRetry := shouldRetry
    delay := if shouldRetry then calculateRetryDelay errorType attempt jitter else 0
    errorType := errorType
    message := errorKindMessage e errorType
    action := errorKindAction shouldRetry errorType
    attempt := attempt + 1 }

/-! ## HTTP client (httpClient.js) -/

/-- The observable outcome of one underlying `axios` GET attempt: either a
response (status plus body) or a thrown transport error with a message.
The axios instance is configured with `validateStatus: status < 500`, so
5xx responses also surface as transport errors; that distinction is
irrelevant to `fetchPage`, which treats both via its catch branch only for
thrown errors and via status checks otherwise — we simply let the oracle
choose which of the two happened. -/
inductive AttemptResult
  | response (status : Nat) (body : String)
  | transportError (msg : String)
  deriving DecidableEq

/-- The record returned by `fetchPage`. -/
structure FetchResult where
  success : Bool
  data : Option String
  status : Nat
  error : Option String
  deriving DecidableEq

/-- `isCaptchaPage` (httpClient.js). -/
def isCaptchaPage (html : String) : Bool :=
  [ "Type the characters you see in this image",
    "Enter the characters you see below",
    "Sorry, we just need to make sure you\x27re not a robot",
    "api-services-support@amazon.com",
    "To discuss automated access to Amazon data" ].any fun ind =>
      strIncludes html ind

/-- `isNotFoundPage` (httpClient.js). -/
def isNotFoundPage (html : String) : Bool :=
  [ "Page Not Found",
    "We\x27re sorry. The Web address you entered is not a functioning page",
    "ASIN not found",
    "The page you requested cannot be found" ].any fun ind =>
      strIncludes html ind

/-- `fetchPage` (httpClient.js).  `attempts` is the oracle list of the
outcomes of the successive transport attempts; its length is
`retries + 1` (the `for attempt in 0..=retries` loop), so `attempts.tail`
being nonempty models `attempt < retries`.  `lastError` is the mutable
`lastError` local (`none` at entry).  Backoff sleeps are elided.  Every
branch returns a record — transport errors are caught, never rethrown. -/
def fetchPage : List AttemptResult → Option String → FetchResult
  | [], lastError =>
    { success := false, data := none, status := 0,
      error := some (lastError.getD "Unknown error") }
  | AttemptResult.transportError msg :: rest, _ =>
    fetchPage rest (some msg)
  | AttemptResult.response status body :: rest, _ =>
    if status = 429 then
      if rest ≠ [] then fetchPage rest (some "Rate limited (429)")
      else { success := false, data := none, status := 429,
             error := some "Rate limited after retries" }
    else if status = 503 then
      if rest ≠ [] then fetchPage rest (some "Service unavailable (503)")
      else { success := false, data := none, status := 503,
             error := some "Service unavailable after retries" }
    else if isCaptchaPage body then
      { success := false, data := none, status := status, error := some "CAPTCHA_DETECTED" }
    else if status = 200 then
      { success := true, data := some body, status := 200, error := none }
    else
      { success := false, data := some body, status := status,
        error := some ("HTTP " ++ toString status) }

/-! ## Search scraper (searchScraper.js) -/

/-- One entry of the `asins` list returned by the search parser. -/
structure AsinEntry where
  asin : String
  url : String
  deriving DecidableEq

/-- The record returned by `performSearch`. -/
structure PerformResult where
  success : Bool
  asins : List AsinEntry
  error : Option String
  deriving DecidableEq

/-- The record returned by `searchAmazon`. -/
structure SearchResult where
  success : Bool
  asins : List AsinEntry
  error : Option String
  usedFallback : Bool
  deriving DecidableEq

/-- `performSearch` (searchScraper.js): fetch the search page and parse
it.  `fetch` is the transport oracle (URL construction via
`encodeURIComponent` is folded into it) and `parse` is the
`parseSearchResults` HTML-parsing collaborator. -/
def performSearch (fetch : String → FetchResult) (parse : String → List AsinEntry)
    (searchTerm : String) : PerformResult :=
  let response := fetch searchTerm
  if ¬response.success then
    { success := false, asins := [], error := response.error }
  else
    { success := true, asins := parse (response.data.getD ""), error := none }

/-- `searchAmazon` (searchScraper.js): first attempt with the original
UPC; on failure or an empty candidate list, one fallback attempt with
`"00"` prepended; if that also fails or is empty, a successful empty
result. -/
def searchAmazon (perform : String → PerformResult) (upc : String) : SearchResult :=
  let result := perform upc
  if result.success = true ∧ result.asins.length > 0 then
    { success := result.success, asins := result.asins, error := result.error, usedFallback := false }
  else if ¬ result.success = true ∨ result.asins.length = 0 then
    let result2 := perform ("00" ++ upc)
    if result2.success = true ∧ result2.asins.length > 0 then
      { success := result2.success, asins := result2.asins, error := result2.error, usedFallback := true }
    else
      { success := true, asins := [], error := none, usedFallback := true }
  else
    { success := true, asins := [], error := none, usedFallback := true }

/-! ## Work-item store (upcQueue.js) -/

/-- `UPC_STATUS`. -/
inductive UpcStatus
  | PENDING
  | IN_PROGRESS
  | DONE
  | FAILED
  | NOT_FOUND
  deriving DecidableEq

/-- One work item of `upcs.json`: row identity, input code, input brand,
status, last-updated timestamp. -/
structure WorkItem where
  rowId : Nat
  upc : String
  brand : String
  status : UpcStatus
  updatedAt : Option Nat
  deriving DecidableEq

/-- `getNextPendingUpc` (upcQueue.js): the first item in stored order
whose status is PENDING, or none. -/
def getNextPendingUpc (items : List WorkItem) : Option WorkItem :=
  items.find? fun u => u.status = UpcStatus.PENDING

/-- `updateUpcStatus` (upcQueue.js): set the status (and `updatedAt`) of
the first item with the given `rowId`; if no item matches, the list is
left unchanged (the JS logs an error and returns null without saving).
The JS uses `findIndex` plus an index assignment; updating the first
match in place is the same operation. -/
def updateUpcStatus (items : List WorkItem) (rowId : Nat) (status : UpcStatus) (now : Nat) :
    List WorkItem :=
  match items with
  | [] => []
  | u :: rest =>
    if u.rowId = rowId then { u with status := status, updatedAt := some now } :: rest
    else u :: updateUpcStatus rest rowId status now

/-- The per-item body of `resetInProgressUpcs`: flip IN_PROGRESS to
PENDING (stamping `updatedAt`), leave every other item untouched. -/
def resetOne (now : Nat) (u : WorkItem) : WorkItem :=
  if u.status = UpcStatus.IN_PROGRESS then
    { u with status := UpcStatus.PENDING, updatedAt := some now }
  else u

/-- `resetInProgressUpcs` (upcQueue.js): the recovery-sweep bulk
reconcile (a `forEach` in-place mutation, i.e. a map). -/
def resetInProgressUpcs (now : Nat) (items : List WorkItem) : List WorkItem :=
  items.map (resetOne now)

/-- Terminal work-item statuses (DONE / FAILED / NOT_FOUND). -/
def isTerminalStatus : UpcStatus → Bool
  | UpcStatus.DONE => true
  | UpcStatus.FAILED => true
  | UpcStatus.NOT_FOUND => true
  | _ => false

/-- `isAllUpcsProcessed` (upcQueue.js). -/
def isAllUpcsProcessed (items : List WorkItem) : Bool :=
  items.all fun u => isTerminalStatus u.status

/-- The counters of `getUpcStats` (upcQueue.js); the JS builds them with
one `forEach` switch, which is the same as counting each status. -/
structure UpcStats where
  total : Nat
  pending : Nat
  inProgress : Nat
  done : Nat
  failed : Nat
  notFound : Nat
  deriving DecidableEq

/-- `getUpcStats` (upcQueue.js). -/
def getUpcStats (items : List WorkItem) : UpcStats :=
  { total := items.length
    pending := (items.filter fun u => u.status = UpcStatus.PENDING).length
    inProgress := (items.filter fun u => u.status = UpcStatus.IN_PROGRESS).length
    done := (items.filter fun u => u.status = UpcStatus.DONE).length
    failed := (items.filter fun u => u.status = UpcStatus.FAILED).length
    notFound := (items.filter fun u => u.status = UpcStatus.NOT_FOUND).length }

/-- Number of work items in a terminal status. -/
def countTerminal (items : List WorkItem) : Nat :=
  (items.filter fun u => isTerminalStatus u.status).length

/-- The stored status of the (first) item with a given rowId. -/
def findStatusByRow (items : List WorkItem) (rowId : Nat) : Option UpcStatus :=
  (items.find? fun u => u.rowId = rowId).map fun u => u.status

/-! ## Job registry (jobManager.js) -/

/-- `JOB_STATUS`. -/
inductive JobStatus
  | QUEUED
  | RUNNING
  | PAUSED
  | COMPLETED
  | FAILED
  deriving DecidableEq

/-- `VALID_TRANSITIONS`. -/
def validTransitions : JobStatus → List JobStatus
  | JobStatus.QUEUED => [JobStatus.RUNNING, JobStatus.FAILED]
  | JobStatus.RUNNING => [JobStatus.PAUSED, JobStatus.COMPLETED, JobStatus.FAILED]
  | JobStatus.PAUSED => [JobStatus.RUNNING, JobStatus.FAILED]
  | JobStatus.COMPLETED => []
  | JobStatus.FAILED => [JobStatus.QUEUED]

/-- `isValidTransition` (jobManager.js). -/
def isValidTransition (fromStatus toStatus : JobStatus) : Bool :=
  (validTransitions fromStatus).contains toStatus

/-- A job record as created by `createJob` (jobManager.js).  The opaque
job identity and file path are kept as strings; timestamps are abstract
instants (`Option Nat`, null until stamped). -/
structure Job where
  jobId : String
  status : JobStatus
  totalUpcs : Nat
  processed : Nat
  failed : Nat
  createdAt : Nat
  startedAt : Option Nat
  completedAt : Option Nat
  pausedAt : Option Nat
  filePath : String
  currentUpcIndex : Nat
  lastProcessedRowId : Option Nat
  errorMessage : Option String
  deriving DecidableEq

/-- `updateJobStatus` (jobManager.js).  Returns the pair (function
result, stored registry record after the call): the transition is
validated before any field is touched, so an invalid request returns
`none` and stores the record unchanged.  A valid transition sets the
status and error message and stamps timestamps per the new status. -/
def updateJobStatus (job : Job) (newStatus : JobStatus) (errorMessage : Option String)
    (now : Nat) : Option Job × Job :=
  if ¬isValidTransition job.status newStatus then (none, job)
  else
    let j1 := { job with status := newStatus, errorMessage := errorMessage }
    let j2 :=
      match newStatus with
      | JobStatus.RUNNING =>
        { j1 with startedAt := if j1.startedAt = none then some now else j1.startedAt,
                  pausedAt := none }
      | JobStatus.PAUSED => { j1 with pausedAt := some now }
      | JobStatus.COMPLETED => { j1 with completedAt := some now }
      | JobStatus.FAILED => { j1 with completedAt := some now }
      | JobStatus.QUEUED =>
        { j1 with startedAt := none, completedAt := none, pausedAt := none,
                  errorMessage := none }
    (some j2, j2)

/-- `updateJobProgress` (jobManager.js): unconditional counter write;
`currentUpcIndex` / `lastProcessedRowId` only when non-null. -/
def updateJobProgress (job : Job) (processed failed : Nat)
    (currentUpcIndex : Option Nat) (lastProcessedRowId : Option Nat) : Job :=
  let j1 := { job with processed := processed, failed := failed }
  let j2 :=
    match currentUpcIndex with
    | some i => { j1 with currentUpcIndex := i }
    | none => j1
  match lastProcessedRowId with
  | some r => { j2 with lastProcessedRowId := some r }
  | none => j2

/-! ## Result store (resultStorage.js) and per-item results -/

/-- One candidate match appended by the worker's ASIN loop.  Numeric
fields are JS numbers (possibly null), modelled as `Option ℚ`. -/
structure Candidate where
  asin : String
  brand : Option String
  title : Option String
  brandMatch : Bool
  upcMatch : Bool
  rating : Option ℚ
  reviews : Option ℚ
  bsr : Option ℚ
  price : Option ℚ
  scrapedUpc : Option String
  deriving DecidableEq

/-- The `result.status` strings used by `processUpc` / `runWorker`. -/
inductive RStatus
  | PENDING
  | CAPTCHA
  | DONE
  | FAILED
  | NOT_FOUND
  deriving DecidableEq

/-- The per-item outcome record built by `processUpc` and stored by
`saveUpcResult` (results.json). -/
structure ItemResult where
  rowId : Nat
  inputUpc : String
  inputBrand : String
  results : List Candidate
  status : RStatus
  attempts : Nat
  error : Option String
  savedAt : Option Nat
  deriving DecidableEq

/-- `saveUpcResult` (resultStorage.js): upsert by `rowId` — replace the
first existing record with the same `rowId`, else append.  The JS stamps
`savedAt` on the (aliased) object after insertion, so the stored record
carries it. -/
def saveUpcResult (now : Nat) (results : List ItemResult) (result : ItemResult) :
    List ItemResult :=
  let r := { result with savedAt := some now }
  match results with
  | [] => [r]
  | x :: rest =>
    if x.rowId = result.rowId then r :: rest
    else x :: saveUpcResult now rest result

/-! ## Per-item processing (worker.js, `processUpc`)

`searchAmazon` and `scrapeProductPage` are invoked as collaborators; the
embedding receives their observable outcomes as oracles.  An oracle value
`Except.error e` models the call throwing (which the outer `try`/`catch`
of `processUpc` intercepts); `Except.ok r` models a returned record.
The search oracle is indexed by the outer attempt number; the product
oracle by outer attempt, ASIN position, and inner product attempt.
Sleeps and the in-memory `trackError` log are elided (they produce no
data consumed by control flow), so `handleScrapingError` is evaluated
with jitter 0 — only its `errorType` and `shouldRetry` fields are read.
-/

/-- The `data` record of a successful `scrapeProductPage`. -/
structure ProductData where
  asin : String
  brand : Option String
  title : Option String
  rating : Option ℚ
  reviews : Option ℚ
  upc : Option String
  bsr : Option ℚ
  price : Option ℚ
  deriving DecidableEq

/-- The record returned by `scrapeProductPage`. -/
structure ProductResult where
  success : Bool
  data : Option ProductData
  error : Option String
  deriving DecidableEq

/-- Placeholder product data; a successful `scrapeProductPage` always
carries `data`, so this default is never read on the paths the worker
takes it from. -/
def defaultProductData : ProductData :=
  { asin := "", brand := none, title := none, rating := none, reviews := none,
    upc := none, bsr := none, price := none }

/-- `validateProduct` (validator.js). -/
structure Validation where
  brandMatch : Bool
  upcMatch : Bool
  deriving DecidableEq

/-- `validateProduct` (validator.js): both best-effort containment checks. -/
def validateProduct (product : ProductData) (inputBrand inputUpc : String) : Validation :=
  { brandMatch := validateBrand product.brand inputBrand
    upcMatch := validateUpc product.upc inputUpc }

/-- Result of the inner `while (productAttempt < 2)` scrape-retry loop:
the loop ends with a product result (`got`, possibly still failed, or
`none` if the loop never ran), aborts the whole item on a classified
CAPTCHA, or propagates a thrown exception to the outer catch. -/
inductive ScrapeOutcome
  | got (r : Option ProductResult)
  | challenge
  | thrown (e : ErrResponse)
  deriving DecidableEq

/-- The inner scrape-retry loop of `processUpc` for one ASIN.  `scrape`
is the `scrapeProductPage` outcome per inner attempt; `pa` is
`productAttempt` and `fuel` the remaining iterations of the
`while (productAttempt < 2)` guard (`2 - pa`). -/
def productLoop (scrape : Nat → Except ErrResponse ProductResult) :
    Nat → Nat → ScrapeOutcome
  | _, 0 => ScrapeOutcome.got none
  | pa, fuel+1 =>
    match scrape pa with
    | Except.error e => ScrapeOutcome.thrown e
    | Except.ok productResult =>
      if productResult.success then ScrapeOutcome.got (some productResult)
      else
        let errorInfo := handleScrapingError { status := some 0, data := productResult.error } pa 0
        if errorInfo.errorType = ErrorType.CAPTCHA then ScrapeOutcome.challenge
        else if errorInfo.shouldRetry && pa < 1 then productLoop scrape (pa+1) fuel
        else ScrapeOutcome.got (some productResult)

/-- Result of the `for` loop over the candidate ASINs, carrying the
accumulated `result.results` list at the moment the loop ended. -/
inductive AsinLoopOutcome
  | done (acc : List Candidate)
  | challenge (acc : List Candidate)
  | thrown (e : ErrResponse) (acc : List Candidate)
  deriving DecidableEq

/-- The candidate row pushed onto `result.results` for one successfully
scraped ASIN. -/
def mkCandidate (d : WorkItem) (entry : AsinEntry) (pr : ProductResult) : Candidate :=
  let data := pr.data.getD defaultProductData
  let validation := validateProduct data d.brand d.upc
  { asin := entry.asin
    brand := data.brand
    title := data.title
    brandMatch := validation.brandMatch
    upcMatch := validation.upcMatch
    rating := data.rating
    reviews := data.reviews
    bsr := data.bsr
    price := data.price
    scrapedUpc := data.upc }

/-- The `for (let i = 0; i < searchResult.asins.length; i++)` loop of
`processUpc`: per ASIN run the scrape-retry loop; a still-failed scrape
is skipped (`continue`), a classified CAPTCHA aborts the whole item, an
exception propagates to the outer catch; a success appends a validated
candidate.  Inter-page delays are elided. -/
def asinLoop (productO : Nat → Nat → Except ErrResponse ProductResult) (d : WorkItem) :
    List AsinEntry → Nat → List Candidate → AsinLoopOutcome
  | [], _, acc => AsinLoopOutcome.done acc
  | entry :: rest, i, acc =>
    match productLoop (productO i) 0 2 with
    | ScrapeOutcome.thrown e => AsinLoopOutcome.thrown e acc
    | ScrapeOutcome.challenge => AsinLoopOutcome.challenge acc
    | ScrapeOutcome.got none => asinLoop productO d rest (i+1) acc
    | ScrapeOutcome.got (some pr) =>
      if ¬pr.success then asinLoop productO d rest (i+1) acc
      else asinLoop productO d rest (i+1) (acc ++ [mkCandidate d entry pr])

/-- The durable state `processUpc` reads and writes: the job's work-item
list (upcs.json) and its outcome list (results.json). -/
structure WorldState where
  items : List WorkItem
  results : List ItemResult
  deriving DecidableEq

/-- The `result` object as initialized at the top of `processUpc`. -/
def initItemResult (d : WorkItem) : ItemResult :=
  { rowId := d.rowId, inputUpc := d.upc, inputBrand := d.brand, results := [],
    status := RStatus.PENDING, attempts := 0, error := none, savedAt := none }

/-- The `while (attempt < MAX_ATTEMPTS)` loop of `processUpc` (after the
initial IN_PROGRESS mark).  `fuel = MAX_ATTEMPTS - attempt` counts the
remaining iterations; `acc` is the mutable `result.results`.  The outer
`catch` is inlined at the two throw sites (the search call and the ASIN
loop): a retryable classified exception re-enters the loop, anything else
concludes FAILED. -/
def processUpcLoop (searchO : Nat → Except ErrResponse SearchResult)
    (productO : Nat → Nat → Nat → Except ErrResponse ProductResult)
    (now : Nat) (d : WorkItem) :
    Nat → Nat → List Candidate → WorldState → ItemResult × WorldState
  | 0, attempt, acc, st =>
    let result := { initItemResult d with
      results := acc
      status := RStatus.FAILED
      error := some "Max retry attempts reached"
      attempts := attempt }
    (result, { items := updateUpcStatus st.items d.rowId UpcStatus.FAILED now,
               results := saveUpcResult now st.results result })
  | fuel+1, attempt, acc, st =>
    match searchO attempt with
    | Except.error e =>
      let errorInfo := handleScrapingError e attempt 0
      if errorInfo.shouldRetry then
        processUpcLoop searchO productO now d fuel (attempt+1) acc st
      else
        let result := { initItemResult d with
          results := acc
          status := RStatus.FAILED
          error := e.message
          attempts := attempt + 1 }
        (result, { items := updateUpcStatus st.items d.rowId UpcStatus.FAILED now,
                   results := saveUpcResult now st.results result })
    | Except.ok searchResult =>
      if ¬searchResult.success then
        let errorInfo := handleScrapingError { status := some 0, data := searchResult.error } attempt 0
        if errorInfo.errorType = ErrorType.CAPTCHA then
          ({ initItemResult d with results := acc, status := RStatus.CAPTCHA }, st)
        else if errorInfo.shouldRetry then
          processUpcLoop searchO productO now d fuel (attempt+1) acc st
        else
          let result := { initItemResult d with
            results := acc
            status := RStatus.FAILED
            error := searchResult.error }
          (result, { items := updateUpcStatus st.items d.rowId UpcStatus.FAILED now,
                     results := saveUpcResult now st.results result })
      else if searchResult.asins.length = 0 then
        let result := { initItemResult d with results := acc, status := RStatus.NOT_FOUND }
        (result, { items := updateUpcStatus st.items d.rowId UpcStatus.NOT_FOUND now,
                   results := saveUpcResult now st.results result })
      else
        match asinLoop (productO attempt) d searchResult.asins 0 acc with
        | AsinLoopOutcome.challenge acc2 =>
          ({ initItemResult d with results := acc2, status := RStatus.CAPTCHA }, st)
        | AsinLoopOutcome.thrown e acc2 =>
          let errorInfo := handleScrapingError e attempt 0
          if errorInfo.shouldRetry then
            processUpcLoop searchO productO now d fuel (attempt+1) acc2 st
          else
            let result := { initItemResult d with
              results := acc2
              status := RStatus.FAILED
              error := e.message
              attempts := attempt + 1 }
            (result, { items := updateUpcStatus st.items d.rowId UpcStatus.FAILED now,
                       results := saveUpcResult now st.results result })
        | AsinLoopOutcome.done acc2 =>
          let result := { initItemResult d with
            results := acc2
            status := RStatus.DONE
            attempts := attempt + 1 }
          (result, { items := updateUpcStatus st.items d.rowId UpcStatus.DONE now,
                     results := saveUpcResult now st.results result })

/-- `processUpc` (worker.js): mark the item IN_PROGRESS, then run the
attempt loop (`MAX_ATTEMPTS = 3`). -/
def processUpc (searchO : Nat → Except ErrResponse SearchResult)
    (productO : Nat → Nat → Nat → Except ErrResponse ProductResult)
    (now : Nat) (st : WorldState) (d : WorkItem) : ItemResult × WorldState :=
  let st1 := { st with items := updateUpcStatus st.items d.rowId UpcStatus.IN_PROGRESS now }
  processUpcLoop searchO productO now d 3 0 [] st1

/-! ## The worker loop (worker.js, `runWorker`) -/

/-- The collaborator oracles one iteration of the worker loop hands to
`processUpc`. -/
structure ItemOracles where
  searchO : Nat → Except ErrResponse SearchResult
  productO : Nat → Nat → Nat → Except ErrResponse ProductResult

/-- The durable world one worker loop operates on: the registry record of
its job (none once deleted) plus the job's work-item and result lists. -/
structure WorkerWorld where
  job : Option Job
  items : List WorkItem
  results : List ItemResult
  deriving DecidableEq

/-- Why the loop returned — instrumentation recording which `break` (or
the completion path) ended the `while (true)` loop.  `fuelExhausted` is
an artifact of the fuelled embedding, not a source exit. -/
inductive ExitReason
  | fuelExhausted
  | jobMissing
  | observedPaused
  | observedTerminal
  | queueEmpty
  | captchaThreshold
  | errorThreshold
  deriving DecidableEq

/-- Instrumentation: one processed work item as observed by the loop-level
policy — the item's reported status and the consecutive-CAPTCHA /
consecutive-error counters before and after the policy update. -/
structure TraceEntry where
  status : RStatus
  ccBefore : Nat
  ceBefore : Nat
  ccAfter : Nat
  ceAfter : Nat
  deriving DecidableEq

/-- The job-pause message of the CAPTCHA-threshold branch. -/
def captchaPauseMessage : String :=
  "CAPTCHA detected - job paused. Please wait 30-60 minutes before resuming."

/-- The job-pause message of the consecutive-error-threshold branch. -/
def tooManyErrorsMessage (n : Nat) : String :=
  "Too many errors (" ++ toString n ++ "). Please check network connectivity."

/-- The `while (true)` body of `runWorker` (worker.js), as a fuelled
recursion.  Per iteration: re-read the job (stop on missing / PAUSED /
COMPLETED / FAILED), fetch the next PENDING item (on none: complete the
job if every item is terminal — CSV export is an external side effect —
and stop), process the item, apply the CAPTCHA / consecutive-error
policy (`MAX_CONSECUTIVE_CAPTCHAS = 3`, `MAX_CONSECUTIVE_ERRORS = 10`),
update job progress, and loop.  `k` numbers the iterations (indexing the
per-item oracles), `cc` / `ce` are the consecutive counters.  Returns the
final world, the exit reason, and the trace of processed items. -/
def runWorkerLoop (oracles : Nat → ItemOracles) (now : Nat) :
    Nat → Nat → Nat → Nat → WorkerWorld → WorkerWorld × ExitReason × List TraceEntry
  | 0, _, _, _, w => (w, ExitReason.fuelExhausted, [])
  | fuel+1, k, cc, ce, w =>
    match w.job with
    | none => (w, ExitReason.jobMissing, [])
    | some job =>
      if job.status = JobStatus.PAUSED then (w, ExitReason.observedPaused, [])
      else if job.status = JobStatus.COMPLETED ∨ job.status = JobStatus.FAILED then
        (w, ExitReason.observedTerminal, [])
      else
        match getNextPendingUpc w.items with
        | none =>
          if isAllUpcsProcessed w.items then
            ({ w with job := some (updateJobStatus job JobStatus.COMPLETED none now).2 },
             ExitReason.queueEmpty, [])
          else (w, ExitReason.queueEmpty, [])
        | some nextUpc =>
          let p := processUpc (oracles k).searchO (oracles k).productO now
            { items := w.items, results := w.results } nextUpc
          let result := p.1
          let w1 : WorkerWorld := { job := w.job, items := p.2.items, results := p.2.results }
          if result.status = RStatus.CAPTCHA then
            let entry : TraceEntry := ⟨result.status, cc, ce, cc + 1, ce + 1⟩
            if cc + 1 ≥ 3 then
              let w2 := { w1 with
                job := some (updateJobStatus job JobStatus.PAUSED (some captchaPauseMessage) now).2 }
              let w3 := { w2 with
                items := updateUpcStatus w2.items nextUpc.rowId UpcStatus.PENDING now }
              (w3, ExitReason.captchaThreshold, [entry])
            else
              let w2 := { w1 with
                items := updateUpcStatus w1.items nextUpc.rowId UpcStatus.PENDING now }
              let rec1 := runWorkerLoop oracles now fuel (k+1) (cc + 1) (ce + 1) w2
              (rec1.1, rec1.2.1, entry :: rec1.2.2)
          else if result.status = RStatus.FAILED then
            let entry : TraceEntry := ⟨result.status, cc, ce, cc, ce + 1⟩
            if ce + 1 ≥ 10 then
              let w2 := { w1 with
                job := some (updateJobStatus job JobStatus.PAUSED
                  (some (tooManyErrorsMessage (ce + 1))) now).2 }
              (w2, ExitReason.errorThreshold, [entry])
            else
              let stats := getUpcStats w1.items
              let w2 := { w1 with
                job := some (updateJobProgress job (stats.done + stats.failed + stats.notFound)
                  stats.failed none (some nextUpc.rowId)) }
              let rec1 := runWorkerLoop oracles now fuel (k+1) cc (ce + 1) w2
              (rec1.1, rec1.2.1, entry :: rec1.2.2)
          else
            let entry : TraceEntry := ⟨result.status, cc, ce, 0, 0⟩
            let stats := getUpcStats w1.items
            let w2 := { w1 with
              job := some (updateJobProgress job (stats.done + stats.failed + stats.notFound)
                stats.failed none (some nextUpc.rowId)) }
            let rec1 := runWorkerLoop oracles now fuel (k+1) 0 0 w2
            (rec1.1, rec1.2.1, entry :: rec1.2.2)

/-- `runWorker` (worker.js): request the RUNNING transition, then enter
the loop. -/
def runWorker (oracles : Nat → ItemOracles) (now : Nat) (fuel : Nat) (w : WorkerWorld) :
    WorkerWorld × ExitReason × List TraceEntry :=
  let w1 :=
    match w.job with
    | some job => { w with job := some (updateJobStatus job JobStatus.RUNNING none now).2 }
    | none => w
  runWorkerLoop oracles now fuel 0 0 0 w1

/-- The durable state of one job as the recovery sweep sees it. -/
structure JobEntry where
  job : Job
  items : List WorkItem
  results : List ItemResult
  deriving DecidableEq

/-- `resumeRunningJobs` (worker.js): for every job left in RUNNING state,
first reset its IN_PROGRESS items to PENDING, then start a fresh worker
(`startWorker` launches `runWorker` in the background; sequential
composition per job is what it observes on the durable store). -/
def resumeRunningJobs (oracles : Nat → ItemOracles) (now : Nat) (fuel : Nat)
    (entries : List JobEntry) : List (WorkerWorld × ExitReason × List TraceEntry) :=
  (entries.filter fun e => e.job.status = JobStatus.RUNNING).map fun e =>
    runWorker oracles now fuel
      { job := some e.job, items := resetInProgressUpcs now e.items, results := e.results }

/-- The progress invariant of the spec: the job's processed counter equals
the number of work items in a terminal status. -/
def invB (w : WorkerWorld) : Bool :=
  match w.job with
  | some j => j.processed = countTerminal w.items
  | none => true

/-! ## Auxiliary definitions used by the verification -/

/-- The transition set named by the specification (spec §4.1). -/
def legalTransitionPairs : List (JobStatus × JobStatus) :=
  [ (JobStatus.QUEUED, JobStatus.RUNNING), (JobStatus.QUEUED, JobStatus.FAILED),
    (JobStatus.RUNNING, JobStatus.PAUSED), (JobStatus.RUNNING, JobStatus.COMPLETED),
    (JobStatus.RUNNING, JobStatus.FAILED), (JobStatus.PAUSED, JobStatus.RUNNING),
    (JobStatus.PAUSED, JobStatus.FAILED), (JobStatus.FAILED, JobStatus.QUEUED) ]

/-- The work-item status a terminal `result.status` is stored as
(`markUpcDone` / `markUpcFailed` / `markUpcNotFound`); the non-terminal
statuses are never stored by `processUpc` and map arbitrarily. -/
def rstatusToUpc : RStatus → UpcStatus
  | RStatus.DONE => UpcStatus.DONE
  | RStatus.FAILED => UpcStatus.FAILED
  | RStatus.NOT_FOUND => UpcStatus.NOT_FOUND
  | RStatus.CAPTCHA => UpcStatus.PENDING
  | RStatus.PENDING => UpcStatus.PENDING

/-- A concrete pending work item (for witnesses). -/
def sampleItem (r : Nat) : WorkItem :=
  { rowId := r, upc := "042100005264", brand := "Acme", status := UpcStatus.PENDING,
    updatedAt := none }

/-- A concrete RUNNING job (for witnesses). -/
def sampleJob : Job :=
  { jobId := "JOB_1", status := JobStatus.RUNNING, totalUpcs := 10, processed := 0,
    failed := 0, createdAt := 0, startedAt := some 0, completedAt := none,
    pausedAt := none, filePath := "input.xlsx", currentUpcIndex := 0,
    lastProcessedRowId := none, errorMessage := none }

/-- A concrete COMPLETED job (for witnesses). -/
def completedJob : Job :=
  { sampleJob with status := JobStatus.COMPLETED, completedAt := some 3 }

/-- Oracles under which every search fails with a blocked-page error:
classified BLOCKED, not retryable, so each item concludes FAILED. -/
def blockedOracle : ItemOracles :=
  { searchO := fun _ =>
      Except.ok { success := false, asins := [], error := some "Access Denied",
                  usedFallback := false }
    productO := fun _ _ _ =>
      Except.ok { success := false, data := none, error := none } }

/-- Oracles under which every search fails with a challenge marker:
classified CAPTCHA. -/
def challengeOracle : ItemOracles :=
  { searchO := fun _ =>
      Except.ok { success := false, asins := [], error := some "/captcha/",
                  usedFallback := false }
    productO := fun _ _ _ =>
      Except.ok { success := false, data := none, error := none } }

/-- A world with one pending item (for witnesses). -/
def sampleWorld1 : WorkerWorld :=
  { job := some sampleJob, items := [sampleItem 1], results := [] }

/-- A world with ten pending items (for the consecutive-error run). -/
def sampleWorld10 : WorkerWorld :=
  { job := some sampleJob, items := (List.range 10).map fun i => sampleItem (i+1),
    results := [] }

/-- The at-most-one-outcome-per-identity property of the result store. -/
def atMostOnePerRow (rs : List ItemResult) : Prop :=
  ∀ r : Nat, (rs.filter fun x => x.rowId = r).length ≤ 1

/-- The world after the loop's shared progress-update step (the
`updateJobProgress` call made with the current item statistics), used to
state the loop's recursion compactly. -/
def progressWorld (oracles : Nat → ItemOracles) (k now : Nat) (w : WorkerWorld)
    (job : Job) (nextUpc : WorkItem) : WorkerWorld :=
  let pitems := (processUpc (oracles k).searchO (oracles k).productO now
    { items := w.items, results := w.results } nextUpc).2.items
  { job := some (updateJobProgress job
      ((getUpcStats pitems).done + (getUpcStats pitems).failed +
        (getUpcStats pitems).notFound)
      (getUpcStats pitems).failed none (some nextUpc.rowId))
    items := pitems
    results := (processUpc (oracles k).searchO (oracles k).productO now
      { items := w.items, results := w.results } nextUpc).2.results }

/-! ## Helper lemmas about the stores -/

lemma countTerminal_nil : countTerminal [] = 0 := rfl

lemma countTerminal_cons (u : WorkItem) (rest : List WorkItem) :
    countTerminal (u :: rest) =
      (if isTerminalStatus u.status then 1 else 0) + countTerminal rest := by
  by_cases h : isTerminalStatus u.status <;>
    simp [countTerminal, List.filter_cons, h, Nat.add_comm]

lemma updateUpcStatus_rowIds (items : List WorkItem) (r : Nat) (s : UpcStatus) (now : Nat) :
    (updateUpcStatus items r s now).map (fun u => u.rowId) = items.map fun u => u.rowId := by
  induction items with
  | nil => rfl
  | cons u rest ih =>
    by_cases h : u.rowId = r <;> simp [updateUpcStatus, h, ih]

lemma updateUpcStatus_twice (items : List WorkItem) (r : Nat) (s1 s2 : UpcStatus) (now : Nat) :
    updateUpcStatus (updateUpcStatus items r s1 now) r s2 now =
      updateUpcStatus items r s2 now := by
  induction items with
  | nil => rfl
  | cons u rest ih =>
    by_cases h : u.rowId = r <;> simp [updateUpcStatus, h, ih]

lemma findStatusByRow_update (items : List WorkItem) (r : Nat) (s : UpcStatus) (now : Nat)
    (h : r ∈ items.map fun u => u.rowId) :
    findStatusByRow (updateUpcStatus items r s now) r = some s := by
  induction items with
  | nil => simp at h
  | cons u rest ih =>
    by_cases hu : u.rowId = r
    · simp [updateUpcStatus, hu, findStatusByRow, List.find?]
    · simp only [List.map_cons, List.mem_cons] at h
      rcases h with h | h
      · exact absurd h.symm hu
      · simpa [updateUpcStatus, hu, findStatusByRow, List.find?] using ih h

lemma getNextPendingUpc_mem {items : List WorkItem} {u : WorkItem}
    (h : getNextPendingUpc items = some u) :
    u ∈ items ∧ u.status = UpcStatus.PENDING := by
  refine ⟨List.mem_of_find?_eq_some h, ?_⟩
  have := List.find?_some h
  simpa using this

lemma countTerminal_update (items : List WorkItem) (r : Nat) (s : UpcStatus) (now : Nat)
    (hnd : (items.map fun u => u.rowId).Nodup) (u : WorkItem) (hu : u ∈ items)
    (hr : u.rowId = r) (hnt : isTerminalStatus u.status = false) :
    countTerminal (updateUpcStatus items r s now) =
      countTerminal items + (if isTerminalStatus s then 1 else 0) := by
  induction items with
  | nil => simp at hu
  | cons v rest ih =>
    simp only [List.map_cons, List.nodup_cons] at hnd
    rcases List.mem_cons.1 hu with rfl | hmem
    · have hupd : updateUpcStatus (u :: rest) r s now =
          { u with status := s, updatedAt := some now } :: rest := by
        simp [updateUpcStatus, hr]
      rw [hupd, countTerminal_cons, countTerminal_cons]
      by_cases hts : isTerminalStatus s
      all_goals simp [hts, hnt]
      all_goals omega
    · have hvr : ¬ v.rowId = r := by
        intro hv
        apply hnd.1
        rw [hv, ← hr]
        exact List.mem_map_of_mem (fun x => x.rowId) hmem
      have hupd : updateUpcStatus (v :: rest) r s now =
          v :: updateUpcStatus rest r s now := by
        simp [updateUpcStatus, hvr]
      rw [hupd, countTerminal_cons, countTerminal_cons, ih hnd.2 hmem]
      omega

lemma stats_sum (items : List WorkItem) :
    (getUpcStats items).done + (getUpcStats items).failed + (getUpcStats items).notFound =
      countTerminal items := by
  induction items with
  | nil => rfl
  | cons u rest ih =>
    cases hs : u.status <;>
      simp only [getUpcStats, countTerminal, List.filter_cons, hs, isTerminalStatus] at ih ⊢ <;>
      simp_all <;> omega

lemma processUpcLoop_spec (searchO : Nat → Except ErrResponse SearchResult)
    (productO : Nat → Nat → Nat → Except ErrResponse ProductResult)
    (now : Nat) (d : WorkItem) :
    ∀ (fuel attempt : Nat) (acc : List Candidate) (st : WorldState),
      ((processUpcLoop searchO productO now d fuel attempt acc st).1.status = RStatus.CAPTCHA ∧
        (processUpcLoop searchO productO now d fuel attempt acc st).2 = st) ∨
      ((processUpcLoop searchO productO now d fuel attempt acc st).1.status ≠ RStatus.CAPTCHA ∧
        (processUpcLoop searchO productO now d fuel attempt acc st).1.status ≠ RStatus.PENDING ∧
        (processUpcLoop searchO productO now d fuel attempt acc st).2.items =
          updateUpcStatus st.items d.rowId
            (rstatusToUpc (processUpcLoop searchO productO now d fuel attempt acc st).1.status)
            now) := by
  intro fuel
  induction fuel with
  | zero =>
    intro attempt acc st
    right
    simp [processUpcLoop, rstatusToUpc]
  | succ f ih =>
    intro attempt acc st
    rw [processUpcLoop]
    cases hs : searchO attempt with
    | error e =>
      by_cases hr : (handleScrapingError e attempt 0).shouldRetry
      · simpa [hr] using ih (attempt+1) acc st
      · right
        simp [hr, rstatusToUpc]
    | ok sr =>
      by_cases hsu : sr.success
      · by_cases hz : sr.asins.length = 0
        · right
          simp [hsu, hz, rstatusToUpc]
        · cases ha : asinLoop (productO attempt) d sr.asins 0 acc with
          | challenge acc2 => left; simp [hsu, hz, ha]
          | thrown e acc2 =>
            by_cases hr : (handleScrapingError e attempt 0).shouldRetry
            · simpa [hsu, hz, ha, hr] using ih (attempt+1) acc2 st
            · right
              simp [hsu, hz, ha, hr, rstatusToUpc]
          | done acc2 =>
            right
            simp [hsu, hz, ha, rstatusToUpc]
      · by_cases hc : (handleScrapingError { status := some 0, data := sr.error } attempt 0).errorType = ErrorType.CAPTCHA
        · left
          simp [hsu, hc]
        · by_cases hr : (handleScrapingError { status := some 0, data := sr.error } attempt 0).shouldRetry
          · simpa [hsu, hc, hr] using ih (attempt+1) acc st
          · right
            simp [hsu, hc, hr, rstatusToUpc]

lemma processUpc_spec (searchO : Nat → Except ErrResponse SearchResult)
    (productO : Nat → Nat → Nat → Except ErrResponse ProductResult)
    (now : Nat) (st : WorldState) (d : WorkItem) :
    ((processUpc searchO productO now st d).1.status = RStatus.CAPTCHA ∧
      (processUpc searchO productO now st d).2.items =
        updateUpcStatus st.items d.rowId UpcStatus.IN_PROGRESS now ∧
      (processUpc searchO productO now st d).2.results = st.results) ∨
    ((processUpc searchO productO now st d).1.status ≠ RStatus.CAPTCHA ∧
      (processUpc searchO productO now st d).1.status ≠ RStatus.PENDING ∧
      (processUpc searchO productO now st d).2.items =
        updateUpcStatus st.items d.rowId
          (rstatusToUpc (processUpc searchO productO now st d).1.status) now) := by
  have h := processUpcLoop_spec searchO productO now d 3 0 []
    { st with items := updateUpcStatus st.items d.rowId UpcStatus.IN_PROGRESS now }
  rcases h with ⟨h1, h2⟩ | ⟨h1, h2, h3⟩
  · left
    refine ⟨h1, ?_, ?_⟩
    · rw [show (processUpc searchO productO now st d).2 =
        (processUpcLoop searchO productO now d 3 0 []
          { st with items := updateUpcStatus st.items d.rowId UpcStatus.IN_PROGRESS now }).2 from rfl]
      rw [h2]
    · rw [show (processUpc searchO productO now st d).2 =
        (processUpcLoop searchO productO now d 3 0 []
          { st with items := updateUpcStatus st.items d.rowId UpcStatus.IN_PROGRESS now }).2 from rfl]
      rw [h2]
  · right
    refine ⟨h1, h2, ?_⟩
    have : (processUpc searchO productO now st d).2.items =
        updateUpcStatus (updateUpcStatus st.items d.rowId UpcStatus.IN_PROGRESS now) d.rowId
          (rstatusToUpc (processUpc searchO productO now st d).1.status) now := h3
    rw [this, updateUpcStatus_twice]

/-! ## The claims -/

/-- C1.  The registry accepts a status change iff the pair is one of the
eight legal transitions, and any other requested transition makes
`updateJobStatus` return null with the stored job record unchanged in
every field. -/
theorem claim_C1 :
    (∀ a b : JobStatus, isValidTransition a b = true ↔ (a, b) ∈ legalTransitionPairs) ∧
    (∀ (job : Job) (newStatus : JobStatus) (errMsg : Option String) (now : Nat),
      (job.status, newStatus) ∉ legalTransitionPairs →
      updateJobStatus job newStatus errMsg now = (none, job)) := by
  constructor
  · intro a b
    cases a <;> cases b <;> simp [isValidTransition, validTransitions, legalTransitionPairs]
  · intro job newStatus errMsg now h
    have hv : ¬ isValidTransition job.status newStatus = true := by
      intro hcontra
      exact h (((fun a b => (by
        cases a <;> cases b <;>
          simp [isValidTransition, validTransitions, legalTransitionPairs] :
            isValidTransition a b = true ↔ (a, b) ∈ legalTransitionPairs))
        job.status newStatus).1 hcontra)
    simp [updateJobStatus, hv]

/-- C1 witness: requesting RUNNING on a COMPLETED job is rejected and the
record is unchanged. -/
theorem claim_C1_witness :
    updateJobStatus completedJob JobStatus.RUNNING none 7 = (none, completedJob) :=
  claim_C1.2 completedJob JobStatus.RUNNING none 7 (by decide)

/-- C7.  The recovery sweep's bulk reconcile maps each work item through
`resetOne` (so the list is not reordered and keeps its length), `resetOne`
flips exactly the IN_PROGRESS items to PENDING and leaves every other
item entirely unchanged, and `resumeRunningJobs` launches the worker for
precisely the RUNNING jobs on the already-reset item list. -/
theorem claim_C7 :
    (∀ (now : Nat) (items : List WorkItem),
      resetInProgressUpcs now items = items.map (resetOne now) ∧
      (resetInProgressUpcs now items).length = items.length) ∧
    (∀ (now : Nat) (u : WorkItem),
      (resetOne now u).rowId = u.rowId ∧ (resetOne now u).upc = u.upc ∧
      (resetOne now u).brand = u.brand ∧
      (u.status = UpcStatus.IN_PROGRESS → (resetOne now u).status = UpcStatus.PENDING) ∧
      (u.status ≠ UpcStatus.IN_PROGRESS → resetOne now u = u)) ∧
    (∀ (oracles : Nat → ItemOracles) (now fuel : Nat) (entries : List JobEntry),
      resumeRunningJobs oracles now fuel entries =
        (entries.filter fun e => e.job.status = JobStatus.RUNNING).map fun e =>
          runWorker oracles now fuel
            { job := some e.job, items := resetInProgressUpcs now e.items,
              results := e.results }) := by
  refine ⟨fun now items => ⟨rfl, by simp [resetInProgressUpcs]⟩, fun now u => ?_, fun _ _ _ _ => rfl⟩
  by_cases h : u.status = UpcStatus.IN_PROGRESS <;> simp [resetOne, h]

/-- C7 witness: an IN_PROGRESS item is reset to PENDING with identity
fields preserved, and a DONE item is untouched. -/
theorem claim_C7_witness :
    (resetOne 9 { rowId := 4
                  upc := "u4"
                  brand := "b4"
                  status := UpcStatus.IN_PROGRESS
                  updatedAt := some 2 }).status = UpcStatus.PENDING ∧
    resetOne 9 { rowId := 5
                 upc := "u5"
                 brand := "b5"
                 status := UpcStatus.DONE
                 updatedAt := some 2 } =
      { rowId := 5
        upc := "u5"
        brand := "b5"
        status := UpcStatus.DONE
        updatedAt := some 2 } :=
  ⟨(claim_C7.2.1 9 _).2.2.2.1 rfl, (claim_C7.2.1 9 _).2.2.2.2 (by decide)⟩

/-- C8.  `getNextPendingUpc` returns the first PENDING item in stored
order (there is a split `l1 ++ u :: l2` with nothing PENDING before `u`),
returns none exactly when no item is PENDING, and the stored order (the
rowId sequence) is invariant under `updateUpcStatus` and the recovery
reset, so hand-out order is always derived from the original input
order. -/
theorem claim_C8 (items : List WorkItem) :
    (∀ u, getNextPendingUpc items = some u →
      u.status = UpcStatus.PENDING ∧
      ∃ l1 l2, items = l1 ++ u :: l2 ∧ ∀ v ∈ l1, v.status ≠ UpcStatus.PENDING) ∧
    (getNextPendingUpc items = none ↔ ∀ u ∈ items, u.status ≠ UpcStatus.PENDING) ∧
    (∀ r s now, (updateUpcStatus items r s now).map (fun u => u.rowId) =
      items.map fun u => u.rowId) ∧
    (∀ now, (resetInProgressUpcs now items).map (fun u => u.rowId) =
      items.map fun u => u.rowId) := by
  refine ⟨?_, ?_, fun r s now => updateUpcStatus_rowIds items r s now, fun now => ?_⟩
  · intro u hu
    refine ⟨(getNextPendingUpc_mem hu).2, ?_⟩
    induction items with
    | nil => simp [getNextPendingUpc] at hu
    | cons v rest ih =>
      by_cases hv : v.status = UpcStatus.PENDING
      · have hvu : v = u := by
          simpa [getNextPendingUpc, List.find?_cons, hv] using hu
        exact ⟨[], rest, by rw [← hvu]; simp, by simp⟩
      · have hu' : getNextPendingUpc rest = some u := by
          simpa [getNextPendingUpc, List.find?_cons, hv] using hu
        obtain ⟨l1, l2, heq, hall⟩ := ih hu'
        exact ⟨v :: l1, l2, by simp [heq], by
          intro x hx
          rcases List.mem_cons.1 hx with rfl | hx
          · exact hv
          · exact hall x hx⟩
  · constructor
    · intro h u hu
      have := List.find?_eq_none.1 h u hu
      simpa using this
    · intro h
      apply List.find?_eq_none.2
      intro u hu
      simpa using h u hu
  · induction items with
    | nil => rfl
    | cons v rest ih =>
      by_cases h : v.status = UpcStatus.IN_PROGRESS <;>
        simp [resetInProgressUpcs, resetOne, h] at ih ⊢ <;> exact ih

/-- C8 witness: on a list whose first item is DONE and second PENDING,
fetch-next returns the second item, split after the DONE item. -/
theorem claim_C8_witness :
    ({ rowId := 2, upc := "b", brand := "B", status := UpcStatus.PENDING,
       updatedAt := none } : WorkItem).status = UpcStatus.PENDING ∧
    ∃ l1 l2,
      [({ rowId := 1, upc := "a", brand := "A", status := UpcStatus.DONE,
          updatedAt := none } : WorkItem),
       { rowId := 2, upc := "b", brand := "B", status := UpcStatus.PENDING,
         updatedAt := none }] =
        l1 ++ ({ rowId := 2, upc := "b", brand := "B", status := UpcStatus.PENDING,
                 updatedAt := none } : WorkItem) :: l2 ∧
      ∀ v ∈ l1, v.status ≠ UpcStatus.PENDING :=
  (claim_C8 _).1 _ (by decide)

lemma saveUpcResult_filter_eq (now : Nat) (rs : List ItemResult) (a : ItemResult)
    (h : (rs.filter fun x => x.rowId = a.rowId).length ≤ 1) :
    (saveUpcResult now rs a).filter (fun x => x.rowId = a.rowId) =
      [{ a with savedAt := some now }] := by
  induction rs with
  | nil => simp [saveUpcResult]
  | cons x rest ih =>
    by_cases hx : x.rowId = a.rowId
    · have h' : (x :: rest.filter fun y => y.rowId = a.rowId).length ≤ 1 := by
        simpa [List.filter_cons, hx] using h
      have hlen : (rest.filter fun y => y.rowId = a.rowId).length = 0 := by
        simp only [List.length_cons] at h'
        omega
      have hrest' : rest.filter (fun y => y.rowId = a.rowId) = [] :=
        List.length_eq_zero.1 hlen
      simp [saveUpcResult, hx, List.filter_cons, hrest']
    · have h' : (rest.filter fun y => y.rowId = a.rowId).length ≤ 1 := by
        simpa [List.filter_cons, hx] using h
      simp [saveUpcResult, hx, List.filter_cons, ih h']

lemma saveUpcResult_filter_ne (now : Nat) (rs : List ItemResult) (a : ItemResult) (r : Nat)
    (hne : ¬ r = a.rowId) :
    (saveUpcResult now rs a).filter (fun x => x.rowId = r) =
      rs.filter fun x => x.rowId = r := by
  have har : ¬ a.rowId = r := fun h => hne h.symm
  induction rs with
  | nil =>
    simp [saveUpcResult, List.filter_cons, har]
  | cons x rest ih =>
    by_cases hx : x.rowId = a.rowId
    · have hxr : ¬ x.rowId = r := fun h => hne (hx ▸ h).symm
      simp [saveUpcResult, hx, List.filter_cons, hxr, har]
    · simp [saveUpcResult, hx, List.filter_cons, ih]

/-- C9.  `saveUpcResult` upserts by rowId: it preserves at-most-one
record per rowId, and two successive saves for the same rowId leave
exactly one record for that rowId, equal to the last write (with its
`savedAt` stamp). -/
theorem claim_C9 :
    (∀ (now : Nat) (rs : List ItemResult) (a : ItemResult),
      atMostOnePerRow rs → atMostOnePerRow (saveUpcResult now rs a)) ∧
    (∀ (now1 now2 : Nat) (rs : List ItemResult) (a b : ItemResult),
      atMostOnePerRow rs → b.rowId = a.rowId →
      (saveUpcResult now2 (saveUpcResult now1 rs a) b).filter
          (fun x => x.rowId = a.rowId) =
        [{ b with savedAt := some now2 }]) := by
  constructor
  · intro now rs a h r
    by_cases hr : r = a.rowId
    · subst hr
      rw [saveUpcResult_filter_eq now rs a (h a.rowId)]
      simp
    · rw [saveUpcResult_filter_ne now rs a r hr]
      exact h r
  · intro now1 now2 rs a b h hba
    have h1 : ((saveUpcResult now1 rs a).filter fun x => x.rowId = b.rowId).length ≤ 1 := by
      rw [hba, saveUpcResult_filter_eq now1 rs a (h a.rowId)]
      simp
    have h2 := saveUpcResult_filter_eq now2 (saveUpcResult now1 rs a) b h1
    rw [← hba]
    exact h2

/-- C9 witness: writing rowId 3 twice into an empty store leaves exactly
the second record. -/
theorem claim_C9_witness :
    (saveUpcResult 2
        (saveUpcResult 1 []
          { rowId := 3, inputUpc := "a", inputBrand := "A", results := [],
            status := RStatus.DONE, attempts := 1, error := none, savedAt := none })
        { rowId := 3, inputUpc := "a", inputBrand := "A", results := [],
          status := RStatus.FAILED, attempts := 2, error := some "x",
          savedAt := none }).filter
        (fun x => x.rowId =
          ({ rowId := 3, inputUpc := "a", inputBrand := "A", results := [],
             status := RStatus.DONE, attempts := 1, error := none,
             savedAt := none } : ItemResult).rowId) =
      [{ rowId := 3, inputUpc := "a", inputBrand := "A", results := [],
         status := RStatus.FAILED, attempts := 2, error := some "x",
         savedAt := some 2 }] :=
  claim_C9.2 1 2 [] _ _ (fun r => by simp) rfl

/-- C10 counterexample: for the CHALLENGE (CAPTCHA) retry strategy
(backoff factor 1) the computed delay is not non-decreasing over
successive attempts for all jitter choices: with jitter 999 on attempt 0
and jitter 0 on attempt 1, the later delay is strictly smaller. -/
theorem claim_C10_counterexample :
    (0:ℚ) ≤ 999 ∧ (999:ℚ) < 1000 ∧ (0:ℚ) ≤ 0 ∧ (0:ℚ) < 1000 ∧
    calculateRetryDelay ErrorType.CAPTCHA 1 0 <
      calculateRetryDelay ErrorType.CAPTCHA 0 999 := by
  refine ⟨by norm_num, by norm_num, le_refl 0, by norm_num, ?_⟩
  norm_num [calculateRetryDelay, retryStrategy]

lemma backoffMonoAux (B M j1 j2 : ℚ) (a : ℕ) (hB : 1000 ≤ B)
    (hj1 : j1 < 1000) (hj2 : 0 ≤ j2) :
    min (B * 2 ^ a + j1) M ≤ min (B * 2 ^ (a + 1) + j2) M := by
  have h1 : (1:ℚ) ≤ 2 ^ a := one_le_pow₀ (by norm_num)
  have key : B * 2 ^ a + j1 ≤ B * 2 ^ (a + 1) + j2 := by
    rw [pow_succ]
    nlinarith
  exact min_le_min key le_rfl

/-- C10 (amended).  Every configured strategy's delay is
`min(base * factor ^ attempt + jitter, ceiling)` and never exceeds the
ceiling; for the strategies with backoff factor 2 (RATE_LIMITED,
SERVICE_UNAVAILABLE, NETWORK) delays over successive attempts are
non-decreasing for all jitter choices; for the CHALLENGE strategy
(factor 1) the deterministic part is constant, so a later delay can
undercut an earlier one only by less than the 1000 ms jitter bound. -/
theorem claim_C10 :
    (∀ (et : ErrorType) (s : RetryStrategy), retryStrategy et = some s →
      ∀ (attempt : Nat) (j : ℚ), 0 ≤ j → j < 1000 →
        calculateRetryDelay et attempt j ≤ (s.maxDelay : ℚ)) ∧
    (∀ (et : ErrorType) (s : RetryStrategy), retryStrategy et = some s →
      s.multiplier = 2 →
      ∀ (attempt : Nat) (j1 j2 : ℚ), 0 ≤ j1 → j1 < 1000 → 0 ≤ j2 → j2 < 1000 →
        calculateRetryDelay et attempt j1 ≤ calculateRetryDelay et (attempt + 1) j2) ∧
    (∀ (attempt : Nat) (j1 j2 : ℚ), 0 ≤ j1 → j1 < 1000 → 0 ≤ j2 → j2 < 1000 →
      calculateRetryDelay ErrorType.CAPTCHA attempt j1 <
        calculateRetryDelay ErrorType.CAPTCHA (attempt + 1) j2 + 1000) := by
  refine ⟨?_, ?_, ?_⟩
  · intro et s hs attempt j hj0 hj1
    rw [calculateRetryDelay, hs]
    exact min_le_right _ _
  · intro et s hs hm attempt j1 j2 hj10 hj11 hj20 hj21
    cases et <;> simp [retryStrategy] at hs <;> subst hs <;>
      simp only [calculateRetryDelay, retryStrategy] <;>
      first
      | (exact absurd hm (by decide))
      | (push_cast
         exact backoffMonoAux _ _ _ _ _ (by norm_num) hj11 hj20)
  · intro attempt j1 j2 hj10 hj11 hj20 hj21
    simp only [calculateRetryDelay, retryStrategy]
    push_cast
    rw [one_pow, one_pow]
    rw [min_eq_left (by linarith), min_eq_left (by linarith)]
    linarith

/-- C10 witness: concrete bound, monotone step for NETWORK, and the
near-monotone bound for CHALLENGE. -/
theorem claim_C10_witness :
    calculateRetryDelay ErrorType.NETWORK 0 500 ≤ ((30000 : Nat) : ℚ) ∧
    calculateRetryDelay ErrorType.NETWORK 0 500 ≤ calculateRetryDelay ErrorType.NETWORK 1 0 ∧
    calculateRetryDelay ErrorType.CAPTCHA 0 999 <
      calculateRetryDelay ErrorType.CAPTCHA 1 0 + 1000 :=
  ⟨claim_C10.1 ErrorType.NETWORK ⟨3, 5000, 2, 30000⟩ rfl 0 500 (by norm_num) (by norm_num),
   claim_C10.2.1 ErrorType.NETWORK ⟨3, 5000, 2, 30000⟩ rfl rfl 0 500 0
     (by norm_num) (by norm_num) le_rfl (by norm_num),
   claim_C10.2.2 0 999 0 (by norm_num) (by norm_num) le_rfl (by norm_num)⟩

/-- C3.  Challenge-abort behaviour of per-item processing: (1) when a
product-page scrape outcome is classified CAPTCHA, the inner retry loop
aborts with `challenge` at that step; (2) the ASIN loop propagates a
challenge immediately, appending nothing; (3) when a failed search
outcome is classified CAPTCHA at any attempt, the attempt loop returns
CAPTCHA with the durable state untouched; (4) likewise when the ASIN loop
reports a challenge; (5) whenever `processUpc` reports CAPTCHA, the only
store write of the invocation is the initial IN_PROGRESS mark — no
result is saved and the item's stored status is IN_PROGRESS, not
terminal. -/
theorem claim_C3 :
    (∀ (scrape : Nat → Except ErrResponse ProductResult) (pa fuel : Nat) (r : ProductResult),
      scrape pa = Except.ok r → r.success = false →
      detectErrorType { status := some 0, data := r.error } = ErrorType.CAPTCHA →
      productLoop scrape pa (fuel + 1) = ScrapeOutcome.challenge) ∧
    (∀ (productO : Nat → Nat → Except ErrResponse ProductResult) (d : WorkItem)
        (entry : AsinEntry) (rest : List AsinEntry) (i : Nat) (acc : List Candidate),
      productLoop (productO i) 0 2 = ScrapeOutcome.challenge →
      asinLoop productO d (entry :: rest) i acc = AsinLoopOutcome.challenge acc) ∧
    (∀ (searchO : Nat → Except ErrResponse SearchResult)
        (productO : Nat → Nat → Nat → Except ErrResponse ProductResult)
        (now : Nat) (d : WorkItem) (fuel attempt : Nat) (acc : List Candidate)
        (st : WorldState) (sr : SearchResult),
      searchO attempt = Except.ok sr → sr.success = false →
      detectErrorType { status := some 0, data := sr.error } = ErrorType.CAPTCHA →
      (processUpcLoop searchO productO now d (fuel + 1) attempt acc st).1.status =
        RStatus.CAPTCHA ∧
      (processUpcLoop searchO productO now d (fuel + 1) attempt acc st).2 = st) ∧
    (∀ (searchO : Nat → Except ErrResponse SearchResult)
        (productO : Nat → Nat → Nat → Except ErrResponse ProductResult)
        (now : Nat) (d : WorkItem) (fuel attempt : Nat) (acc acc2 : List Candidate)
        (st : WorldState) (sr : SearchResult),
      searchO attempt = Except.ok sr → sr.success = true → sr.asins ≠ [] →
      asinLoop (productO attempt) d sr.asins 0 acc = AsinLoopOutcome.challenge acc2 →
      (processUpcLoop searchO productO now d (fuel + 1) attempt acc st).1.status =
        RStatus.CAPTCHA ∧
      (processUpcLoop searchO productO now d (fuel + 1) attempt acc st).2 = st) ∧
    (∀ (searchO : Nat → Except ErrResponse SearchResult)
        (productO : Nat → Nat → Nat → Except ErrResponse ProductResult)
        (now : Nat) (st : WorldState) (d : WorkItem),
      (processUpc searchO productO now st d).1.status = RStatus.CAPTCHA →
      (processUpc searchO productO now st d).2.items =
        updateUpcStatus st.items d.rowId UpcStatus.IN_PROGRESS now ∧
      (processUpc searchO productO now st d).2.results = st.results ∧
      (d.rowId ∈ st.items.map (fun u => u.rowId) →
        findStatusByRow (processUpc searchO productO now st d).2.items d.rowId =
          some UpcStatus.IN_PROGRESS)) := by
  refine ⟨?_, ?_, ?_, ?_, ?_⟩
  · intro scrape pa fuel r hok hfail hcap
    rw [productLoop, hok]
    simp [hfail, handleScrapingError, hcap]
  · intro productO d entry rest i acc hch
    rw [asinLoop, hch]
  · intro searchO productO now d fuel attempt acc st sr hok hfail hcap
    rw [processUpcLoop]
    rw [hok]
    simp [hfail, handleScrapingError, hcap]
  · intro searchO productO now d fuel attempt acc acc2 st sr hok hsucc hne hch
    rw [processUpcLoop]
    rw [hok]
    have hz : ¬ sr.asins.length = 0 := by simpa using hne
    simp [hsucc, hz, hch]
  · intro searchO productO now st d hcap
    rcases processUpc_spec searchO productO now st d with ⟨h1, h2, h3⟩ | ⟨h1, h2, h3⟩
    · refine ⟨h2, h3, fun hmem => ?_⟩
      rw [h2]
      exact findStatusByRow_update st.items d.rowId UpcStatus.IN_PROGRESS now hmem
    · exact absurd hcap h1

/-- C3 witness: a product-page outcome carrying a challenge marker
aborts the item with CAPTCHA; the one pending work item stays
IN_PROGRESS with no result saved. -/
theorem claim_C3_witness :
    (processUpc (fun _ => Except.ok
          { success := true
            asins := [{ asin := "B000", url := "https://www.amazon.com/dp/B000" }]
            error := none
            usedFallback := false })
        (fun _ _ _ => Except.ok
          { success := false, data := none, error := some "/captcha/" })
        6 { items := [sampleItem 1], results := [] } (sampleItem 1)).2.results = [] ∧
    findStatusByRow
        (processUpc (fun _ => Except.ok
            { success := true
              asins := [{ asin := "B000", url := "https://www.amazon.com/dp/B000" }]
              error := none
              usedFallback := false })
          (fun _ _ _ => Except.ok
            { success := false, data := none, error := some "/captcha/" })
          6 { items := [sampleItem 1], results := [] } (sampleItem 1)).2.items 1 =
      some UpcStatus.IN_PROGRESS := by
  have h := claim_C3.2.2.2.2
    (fun _ => Except.ok
      { success := true
        asins := [{ asin := "B000", url := "https://www.amazon.com/dp/B000" }]
        error := none
        usedFallback := false })
    (fun _ _ _ => Except.ok
      { success := false, data := none, error := some "/captcha/" })
    6 { items := [sampleItem 1], results := [] } (sampleItem 1) (by decide)
  exact ⟨h.2.1, h.2.2 (by decide)⟩


lemma processUpc_def (searchO : Nat → Except ErrResponse SearchResult)
    (productO : Nat → Nat → Nat → Except ErrResponse ProductResult)
    (now : Nat) (st : WorldState) (d : WorkItem) :
    processUpc searchO productO now st d =
      processUpcLoop searchO productO now d 3 0 []
        { st with items := updateUpcStatus st.items d.rowId UpcStatus.IN_PROGRESS now } := rfl

/-- C4.  `fetchPage` reports every error in-band (a successful record
means HTTP 200; an all-transport-error run yields a failure record, never
a throw); `searchAmazon` always returns success = true; when both the
original and the 00-prefixed attempt fail or find no candidates it
returns the successful empty record; `performSearch` turns a failed fetch
into a failed-but-returned search result; and `processUpc` concludes a
successful empty search as NOT_FOUND — so any classified search error
surfaces as an empty candidate list and the item ends NOT_FOUND, not
FAILED or CHALLENGE. -/
theorem claim_C4 :
    (∀ (attempts : List AttemptResult) (lastErr : Option String),
      (fetchPage attempts lastErr).success = true →
      (fetchPage attempts lastErr).status = 200) ∧
    (∀ (attempts : List AttemptResult) (lastErr : Option String),
      (∀ a ∈ attempts, ∃ msg, a = AttemptResult.transportError msg) →
      (fetchPage attempts lastErr).success = false) ∧
    (∀ (perform : String → PerformResult) (upc : String),
      (searchAmazon perform upc).success = true) ∧
    (∀ (perform : String → PerformResult) (upc : String),
      (¬(perform upc).success = true ∨ (perform upc).asins = []) →
      (¬(perform ("00" ++ upc)).success = true ∨ (perform ("00" ++ upc)).asins = []) →
      searchAmazon perform upc =
        { success := true, asins := [], error := none, usedFallback := true }) ∧
    (∀ (fetch : String → FetchResult) (parse : String → List AsinEntry)
        (searchTerm : String),
      (fetch searchTerm).success = false →
      performSearch fetch parse searchTerm =
        { success := false, asins := [], error := (fetch searchTerm).error }) ∧
    (∀ (searchO : Nat → Except ErrResponse SearchResult)
        (productO : Nat → Nat → Nat → Except ErrResponse ProductResult)
        (now : Nat) (st : WorldState) (d : WorkItem) (sr : SearchResult),
      searchO 0 = Except.ok sr → sr.success = true → sr.asins = [] →
      (processUpc searchO productO now st d).1.status = RStatus.NOT_FOUND ∧
      (d.rowId ∈ st.items.map (fun u => u.rowId) →
        findStatusByRow (processUpc searchO productO now st d).2.items d.rowId =
          some UpcStatus.NOT_FOUND)) := by
  refine ⟨?_, ?_, ?_, ?_, ?_, ?_⟩
  · intro attempts
    induction attempts with
    | nil => intro lastErr h; simp [fetchPage] at h
    | cons a rest ih =>
      intro lastErr h
      cases a with
      | transportError msg =>
        rw [fetchPage] at h ⊢
        exact ih _ h
      | response status body =>
        rw [fetchPage] at h ⊢
        by_cases h429 : status = 429
        · rw [if_pos h429] at h ⊢
          by_cases hrest : rest ≠ []
          · rw [if_pos hrest] at h ⊢
            exact ih _ h
          · rw [if_neg hrest] at h
            simp at h
        · rw [if_neg h429] at h ⊢
          by_cases h503 : status = 503
          · rw [if_pos h503] at h ⊢
            by_cases hrest : rest ≠ []
            · rw [if_pos hrest] at h ⊢
              exact ih _ h
            · rw [if_neg hrest] at h
              simp at h
          · rw [if_neg h503] at h ⊢
            by_cases hcap : isCaptchaPage body
            · rw [if_pos hcap] at h
              simp at h
            · rw [if_neg hcap] at h ⊢
              by_cases h200 : status = 200
              · rw [if_pos h200]
              · rw [if_neg h200] at h
                simp at h
  · intro attempts
    induction attempts with
    | nil => intro lastErr _; simp [fetchPage]
    | cons a rest ih =>
      intro lastErr hall
      obtain ⟨msg, rfl⟩ := hall a (by simp)
      rw [fetchPage]
      exact ih (some msg) fun x hx => hall x (by simp [hx])
  · intro perform upc
    simp only [searchAmazon]
    by_cases h1 : (perform upc).success = true ∧ (perform upc).asins.length > 0
    · simp [h1, h1.1]
    · rw [if_neg h1]
      have h2 : ¬(perform upc).success = true ∨ (perform upc).asins.length = 0 := by
        rcases not_and_or.1 h1 with h | h
        · exact Or.inl h
        · exact Or.inr (by omega)
      rw [if_pos h2]
      by_cases h3 : (perform ("00" ++ upc)).success = true ∧
          (perform ("00" ++ upc)).asins.length > 0
      · simp [h3, h3.1]
      · simp [h3]
  · intro perform upc hA hB
    simp only [searchAmazon]
    have h1 : ¬((perform upc).success = true ∧ (perform upc).asins.length > 0) := by
      rintro ⟨hs, hl⟩
      rcases hA with h | h
      · exact h hs
      · rw [h] at hl
        simp at hl
    rw [if_neg h1]
    have h2 : ¬(perform upc).success = true ∨ (perform upc).asins.length = 0 := by
      rcases hA with h | h
      · exact Or.inl h
      · exact Or.inr (by simp [h])
    rw [if_pos h2]
    have h3 : ¬((perform ("00" ++ upc)).success = true ∧
        (perform ("00" ++ upc)).asins.length > 0) := by
      rintro ⟨hs, hl⟩
      rcases hB with h | h
      · exact h hs
      · rw [h] at hl
        simp at hl
    rw [if_neg h3]
  · intro fetch parse searchTerm hf
    simp [performSearch, hf]
  · intro searchO productO now st d sr hok hsucc hempty
    have hstep : processUpc searchO productO now st d =
        (let result := { initItemResult d with results := [], status := RStatus.NOT_FOUND }
         (result,
          { items := updateUpcStatus
              (updateUpcStatus st.items d.rowId UpcStatus.IN_PROGRESS now)
              d.rowId UpcStatus.NOT_FOUND now,
            results := saveUpcResult now st.results result })) := by
      rw [processUpc_def]
      rw [show (3:Nat) = 2 + 1 from rfl, processUpcLoop, hok]
      simp [hsucc, hempty]
    constructor
    · rw [hstep]
    · intro hmem
      rw [hstep]
      simp only
      rw [updateUpcStatus_twice]
      exact findStatusByRow_update st.items d.rowId UpcStatus.NOT_FOUND now hmem

/-- C4 witness: a run whose two performSearch attempts both fail on fetch
errors (a rate-limit and a captcha page) yields a successful empty search,
and the worker concludes the pending item NOT_FOUND. -/
theorem claim_C4_witness :
    searchAmazon
        (fun term => performSearch
          (fun _ => fetchPage [AttemptResult.response 429 ""] none)
          (fun _ => []) term) "042100005264" =
      { success := true, asins := [], error := none, usedFallback := true } ∧
    (processUpc (fun _ => Except.ok
          { success := true, asins := [], error := none, usedFallback := true })
        (fun _ _ _ => Except.ok { success := false, data := none, error := none })
        8 { items := [sampleItem 1], results := [] } (sampleItem 1)).1.status =
      RStatus.NOT_FOUND := by
  constructor
  · exact claim_C4.2.2.2.1 _ "042100005264" (by decide) (by decide)
  · exact (claim_C4.2.2.2.2.2 _ _ 8 _ (sampleItem 1) _ rfl rfl rfl).1

/-- C6 counterexample: a FAILED outcome does not reset the counters — in
a concrete run the FAILED item leaves the consecutive-error counter at 1,
so the claim that every non-CHALLENGE terminal outcome resets both
counters to zero is false. -/
theorem claim_C6_counterexample :
    ¬ (∀ e ∈ (runWorkerLoop (fun _ => blockedOracle) 5 3 0 0 0 sampleWorld1).2.2,
        (e.status = RStatus.DONE ∨ e.status = RStatus.FAILED ∨
          e.status = RStatus.NOT_FOUND) →
        e.ccAfter = 0 ∧ e.ceAfter = 0) := by
  intro h
  have := h ⟨RStatus.FAILED, 0, 0, 0, 1⟩ (by decide) (by decide)
  simp at this

/-- C6 (amended).  The loop-level counter policy, observed after every
processed item: a DONE or NOT_FOUND outcome resets both consecutive
counters to zero; a FAILED outcome leaves the CAPTCHA counter unchanged
and increments the error counter; a CAPTCHA outcome increments both. -/
theorem claim_C6 (oracles : Nat → ItemOracles) (now : Nat) :
    ∀ (fuel k cc ce : Nat) (w : WorkerWorld),
      ∀ e ∈ (runWorkerLoop oracles now fuel k cc ce w).2.2,
        ((e.status = RStatus.DONE ∨ e.status = RStatus.NOT_FOUND) →
          e.ccAfter = 0 ∧ e.ceAfter = 0) ∧
        (e.status = RStatus.FAILED →
          e.ccAfter = e.ccBefore ∧ e.ceAfter = e.ceBefore + 1) ∧
        (e.status = RStatus.CAPTCHA →
          e.ccAfter = e.ccBefore + 1 ∧ e.ceAfter = e.ceBefore + 1) := by
  intro fuel
  induction fuel with
  | zero =>
    intro k cc ce w e he
    simp [runWorkerLoop] at he
  | succ f ih =>
    intro k cc ce w e he
    rw [runWorkerLoop] at he
    cases hwj : w.job with
    | none =>
      rw [hwj] at he
      simp at he
    | some job =>
      rw [hwj] at he
      by_cases hp : job.status = JobStatus.PAUSED
      · simp [hp] at he
      · by_cases ht : job.status = JobStatus.COMPLETED ∨ job.status = JobStatus.FAILED
        · simp [hp, ht] at he
        · cases hnext : getNextPendingUpc w.items with
          | none =>
            rw [hnext] at he
            by_cases hall : isAllUpcsProcessed w.items <;> simp [hp, ht, hall] at he
          | some nextUpc =>
            rw [hnext] at he
            by_cases hcap : (processUpc (oracles k).searchO (oracles k).productO now
                { items := w.items, results := w.results } nextUpc).1.status = RStatus.CAPTCHA
            · by_cases hth : cc + 1 ≥ 3
              · simp only [hp, ht, hcap, hth] at he
                simp at he
                subst he
                simp [hcap]
              · simp only [hp, ht, hcap, hth] at he
                simp at he
                rcases he with he | he
                · subst he
                  simp [hcap]
                · exact ih _ _ _ _ e he
            · by_cases hfail : (processUpc (oracles k).searchO (oracles k).productO now
                  { items := w.items, results := w.results } nextUpc).1.status = RStatus.FAILED
              · by_cases hth : ce + 1 ≥ 10
                · simp only [hp, ht, hcap, hfail, hth] at he
                  simp at he
                  subst he
                  simp [hfail, hcap]
                · simp only [hp, ht, hcap, hfail, hth] at he
                  simp at he
                  rcases he with he | he
                  · subst he
                    simp [hfail, hcap]
                  · exact ih _ _ _ _ e he
              · simp only [hp, ht, hcap, hfail] at he
                simp at he
                rcases he with he | he
                · subst he
                  simp [hfail, hcap]
                · exact ih _ _ _ _ e he

/-- C6 witness: the amended counter policy at the concrete FAILED run's
trace entry. -/
theorem claim_C6_witness :
    (((⟨RStatus.FAILED, 0, 0, 0, 1⟩ : TraceEntry).status = RStatus.DONE ∨
        (⟨RStatus.FAILED, 0, 0, 0, 1⟩ : TraceEntry).status = RStatus.NOT_FOUND) →
      (⟨RStatus.FAILED, 0, 0, 0, 1⟩ : TraceEntry).ccAfter = 0 ∧
        (⟨RStatus.FAILED, 0, 0, 0, 1⟩ : TraceEntry).ceAfter = 0) ∧
    ((⟨RStatus.FAILED, 0, 0, 0, 1⟩ : TraceEntry).status = RStatus.FAILED →
      (⟨RStatus.FAILED, 0, 0, 0, 1⟩ : TraceEntry).ccAfter =
        (⟨RStatus.FAILED, 0, 0, 0, 1⟩ : TraceEntry).ccBefore ∧
      (⟨RStatus.FAILED, 0, 0, 0, 1⟩ : TraceEntry).ceAfter =
        (⟨RStatus.FAILED, 0, 0, 0, 1⟩ : TraceEntry).ceBefore + 1) ∧
    ((⟨RStatus.FAILED, 0, 0, 0, 1⟩ : TraceEntry).status = RStatus.CAPTCHA →
      (⟨RStatus.FAILED, 0, 0, 0, 1⟩ : TraceEntry).ccAfter =
        (⟨RStatus.FAILED, 0, 0, 0, 1⟩ : TraceEntry).ccBefore + 1 ∧
      (⟨RStatus.FAILED, 0, 0, 0, 1⟩ : TraceEntry).ceAfter =
        (⟨RStatus.FAILED, 0, 0, 0, 1⟩ : TraceEntry).ceBefore + 1) :=
  claim_C6 (fun _ => blockedOracle) 5 3 0 0 0 sampleWorld1
    ⟨RStatus.FAILED, 0, 0, 0, 1⟩ (by decide)

/-- C5.  An iteration entered with two prior consecutive CHALLENGEs
(`cc ≥ 2`) on a RUNNING job whose next pending item reports CAPTCHA exits
through the CAPTCHA threshold: the job is PAUSED with the (non-empty)
explanatory message recorded, and the triggering item's stored status is
PENDING — not FAILED — when the loop returns. -/
theorem claim_C5 (oracles : Nat → ItemOracles) (now fuel k cc ce : Nat) (w : WorkerWorld)
    (job : Job) (hjob : w.job = some job) (hrun : job.status = JobStatus.RUNNING)
    (nextUpc : WorkItem) (hnext : getNextPendingUpc w.items = some nextUpc)
    (hcap : (processUpc (oracles k).searchO (oracles k).productO now
        { items := w.items, results := w.results } nextUpc).1.status = RStatus.CAPTCHA)
    (hcc : 2 ≤ cc) :
    (runWorkerLoop oracles now (fuel + 1) k cc ce w).2.1 = ExitReason.captchaThreshold ∧
    (∃ j, (runWorkerLoop oracles now (fuel + 1) k cc ce w).1.job = some j ∧
      j.status = JobStatus.PAUSED ∧ j.errorMessage = some captchaPauseMessage) ∧
    captchaPauseMessage ≠ "" ∧
    findStatusByRow (runWorkerLoop oracles now (fuel + 1) k cc ce w).1.items
      nextUpc.rowId = some UpcStatus.PENDING := by
  have hth : cc + 1 ≥ 3 := by omega
  have hloop : runWorkerLoop oracles now (fuel + 1) k cc ce w =
      ({ job := some (updateJobStatus job JobStatus.PAUSED (some captchaPauseMessage) now).2,
         items := updateUpcStatus
           (processUpc (oracles k).searchO (oracles k).productO now
             { items := w.items, results := w.results } nextUpc).2.items
           nextUpc.rowId UpcStatus.PENDING now,
         results := (processUpc (oracles k).searchO (oracles k).productO now
           { items := w.items, results := w.results } nextUpc).2.results },
       ExitReason.captchaThreshold,
       [⟨RStatus.CAPTCHA, cc, ce, cc + 1, ce + 1⟩]) := by
    rw [runWorkerLoop, hjob]
    simp only [hrun, hnext, hcap, hth]
    simp
  have hmem : nextUpc.rowId ∈ w.items.map fun u => u.rowId :=
    List.mem_map_of_mem (fun u => u.rowId) (getNextPendingUpc_mem hnext).1
  have hitems : (processUpc (oracles k).searchO (oracles k).productO now
      { items := w.items, results := w.results } nextUpc).2.items =
      updateUpcStatus w.items nextUpc.rowId UpcStatus.IN_PROGRESS now := by
    rcases processUpc_spec (oracles k).searchO (oracles k).productO now
        { items := w.items, results := w.results } nextUpc with ⟨_, h2, _⟩ | ⟨h1, _, _⟩
    · exact h2
    · exact absurd hcap h1
  have hst : ((updateJobStatus job JobStatus.PAUSED (some captchaPauseMessage) now).2).status =
      JobStatus.PAUSED := by
    simp [updateJobStatus, isValidTransition, validTransitions, hrun]
  have herr : ((updateJobStatus job JobStatus.PAUSED (some captchaPauseMessage) now).2).errorMessage =
      some captchaPauseMessage := by
    simp [updateJobStatus, isValidTransition, validTransitions, hrun]
  refine ⟨by rw [hloop], ⟨_, by rw [hloop], hst, herr⟩, by decide, ?_⟩
  rw [hloop]
  simp only [hitems, updateUpcStatus_twice]
  exact findStatusByRow_update w.items nextUpc.rowId UpcStatus.PENDING now hmem

/-- C5 witness: a concrete RUNNING job whose item reports a third
consecutive CAPTCHA: the loop pauses the job with the message and leaves
the item PENDING. -/
theorem claim_C5_witness :
    (runWorkerLoop (fun _ => challengeOracle) 5 (0 + 1) 0 2 2 sampleWorld1).2.1 =
      ExitReason.captchaThreshold ∧
    (∃ j, (runWorkerLoop (fun _ => challengeOracle) 5 (0 + 1) 0 2 2 sampleWorld1).1.job =
        some j ∧
      j.status = JobStatus.PAUSED ∧ j.errorMessage = some captchaPauseMessage) ∧
    captchaPauseMessage ≠ "" ∧
    findStatusByRow (runWorkerLoop (fun _ => challengeOracle) 5 (0 + 1) 0 2 2 sampleWorld1).1.items
      (sampleItem 1).rowId = some UpcStatus.PENDING :=
  claim_C5 (fun _ => challengeOracle) 5 0 0 2 2 sampleWorld1 sampleJob rfl rfl
    (sampleItem 1) (by decide) (by decide) (by decide)

lemma updateJobStatus_processed (job : Job) (ns : JobStatus) (em : Option String) (now : Nat) :
    ((updateJobStatus job ns em now).2).processed = job.processed := by
  by_cases h : isValidTransition job.status ns = true
  · cases ns <;> simp [updateJobStatus, h]
  · simp [updateJobStatus, h]

lemma updateJobProgress_processed (job : Job) (p f : Nat) (ci lr : Option Nat) :
    (updateJobProgress job p f ci lr).processed = p := by
  cases ci <;> cases lr <;> simp [updateJobProgress]

/-- C2 counterexample: in a run of ten consecutively FAILED items the
loop exits through the consecutive-error threshold before the progress
update, so at that observation point the job's processed counter (9) no
longer equals the number of terminal work items (10). -/
theorem claim_C2_counterexample :
    (runWorkerLoop (fun _ => blockedOracle) 5 12 0 0 0 sampleWorld10).2.1 =
      ExitReason.errorThreshold ∧
    invB (runWorkerLoop (fun _ => blockedOracle) 5 12 0 0 0 sampleWorld10).1 = false := by
  constructor
  · decide
  · decide

/-- C2 (amended).  For a job with duplicate-free row identities, if the
progress invariant (processed = number of terminal work items) holds on
entry, then at every observation point of the worker loop it still holds
— except when the loop exits through the consecutive-failure threshold,
where the just-failed item is terminal but the skipped progress update
leaves the processed counter exactly one short.  The
consecutive-challenge exit preserves the invariant (the triggering item
is not terminal). -/
theorem claim_C2 (oracles : Nat → ItemOracles) (now : Nat) :
    ∀ (fuel k cc ce : Nat) (w : WorkerWorld),
      (w.items.map fun u => u.rowId).Nodup → invB w = true →
      ((runWorkerLoop oracles now fuel k cc ce w).2.1 ≠ ExitReason.errorThreshold →
        invB (runWorkerLoop oracles now fuel k cc ce w).1 = true) ∧
      ((runWorkerLoop oracles now fuel k cc ce w).2.1 = ExitReason.errorThreshold →
        ∃ j, (runWorkerLoop oracles now fuel k cc ce w).1.job = some j ∧
          j.processed + 1 =
            countTerminal (runWorkerLoop oracles now fuel k cc ce w).1.items) := by
  intro fuel
  induction fuel with
  | zero =>
    intro k cc ce w hnd hinv
    constructor
    · intro _
      simpa [runWorkerLoop] using hinv
    · intro h
      simp [runWorkerLoop] at h
  | succ f ih =>
    intro k cc ce w hnd hinv
    cases hwj : w.job with
    | none =>
      have hloop : runWorkerLoop oracles now (f + 1) k cc ce w =
          (w, ExitReason.jobMissing, []) := by
        rw [runWorkerLoop, hwj]
      refine ⟨fun _ => by rw [hloop]; exact hinv, fun h => by rw [hloop] at h; simp at h⟩
    | some job =>
      have hjp : job.processed = countTerminal w.items := by
        simpa [invB, hwj] using hinv
      by_cases hp : job.status = JobStatus.PAUSED
      · have hloop : runWorkerLoop oracles now (f + 1) k cc ce w =
            (w, ExitReason.observedPaused, []) := by
          rw [runWorkerLoop, hwj]
          simp [hp]
        refine ⟨fun _ => by rw [hloop]; exact hinv, fun h => by rw [hloop] at h; simp at h⟩
      · by_cases ht : job.status = JobStatus.COMPLETED ∨ job.status = JobStatus.FAILED
        · have hloop : runWorkerLoop oracles now (f + 1) k cc ce w =
              (w, ExitReason.observedTerminal, []) := by
            rw [runWorkerLoop, hwj]
            simp [hp, ht]
          refine ⟨fun _ => by rw [hloop]; exact hinv, fun h => by rw [hloop] at h; simp at h⟩
        · cases hnext : getNextPendingUpc w.items with
          | none =>
            by_cases hall : isAllUpcsProcessed w.items = true
            · have hloop : runWorkerLoop oracles now (f + 1) k cc ce w =
                  ({ job := some (updateJobStatus job JobStatus.COMPLETED none now).2
                     items := w.items
                     results := w.results },
                   ExitReason.queueEmpty, []) := by
                rw [runWorkerLoop, hwj]
                simp [hp, ht, hnext, hall]
              refine ⟨fun _ => ?_, fun h => by rw [hloop] at h; simp at h⟩
              rw [hloop]
              simp [invB, updateJobStatus_processed, hjp]
            · have hloop : runWorkerLoop oracles now (f + 1) k cc ce w =
                  (w, ExitReason.queueEmpty, []) := by
                rw [runWorkerLoop, hwj]
                simp [hp, ht, hnext, hall]
              refine ⟨fun _ => by rw [hloop]; exact hinv, fun h => by rw [hloop] at h; simp at h⟩
          | some nextUpc =>
            have hmemu := getNextPendingUpc_mem hnext
            have hnt : isTerminalStatus nextUpc.status = false := by
              rw [hmemu.2]
              rfl
            rcases processUpc_spec (oracles k).searchO (oracles k).productO now
                { items := w.items, results := w.results } nextUpc with
              ⟨hc1, hc2, hc3⟩ | ⟨hc1, hcp, hc2⟩
            · -- CAPTCHA outcome: item reset to PENDING, never terminal
              have hcnt : countTerminal
                  (updateUpcStatus w.items nextUpc.rowId UpcStatus.PENDING now) =
                  countTerminal w.items := by
                rw [countTerminal_update w.items nextUpc.rowId UpcStatus.PENDING now
                  hnd nextUpc hmemu.1 rfl hnt]
                rfl
              by_cases hth : cc + 1 ≥ 3
              · have hloop : runWorkerLoop oracles now (f + 1) k cc ce w =
                    ({ job := some (updateJobStatus job JobStatus.PAUSED
                         (some captchaPauseMessage) now).2
                       items := updateUpcStatus w.items nextUpc.rowId UpcStatus.PENDING now
                       results := (processUpc (oracles k).searchO (oracles k).productO now
                         { items := w.items, results := w.results } nextUpc).2.results },
                     ExitReason.captchaThreshold,
                     [⟨RStatus.CAPTCHA, cc, ce, cc + 1, ce + 1⟩]) := by
                  rw [runWorkerLoop, hwj]
                  simp only [hp, ht, hnext, hc1, hth]
                  simp [hc2, updateUpcStatus_twice]
                refine ⟨fun _ => ?_, fun h => by rw [hloop] at h; simp at h⟩
                rw [hloop]
                simp [invB, updateJobStatus_processed, hjp, hcnt]
              · have hloop : runWorkerLoop oracles now (f + 1) k cc ce w =
                    ((runWorkerLoop oracles now f (k + 1) (cc + 1) (ce + 1)
                        { job := some job
                          items := updateUpcStatus w.items nextUpc.rowId UpcStatus.PENDING now
                          results := (processUpc (oracles k).searchO (oracles k).productO now
                            { items := w.items, results := w.results } nextUpc).2.results }).1,
                     (runWorkerLoop oracles now f (k + 1) (cc + 1) (ce + 1)
                        { job := some job
                          items := updateUpcStatus w.items nextUpc.rowId UpcStatus.PENDING now
                          results := (processUpc (oracles k).searchO (oracles k).productO now
                            { items := w.items, results := w.results } nextUpc).2.results }).2.1,
                     ⟨RStatus.CAPTCHA, cc, ce, cc + 1, ce + 1⟩ ::
                       (runWorkerLoop oracles now f (k + 1) (cc + 1) (ce + 1)
                          { job := some job
                            items := updateUpcStatus w.items nextUpc.rowId UpcStatus.PENDING now
                            results := (processUpc (oracles k).searchO (oracles k).productO now
                              { items := w.items, results := w.results } nextUpc).2.results }).2.2) := by
                  rw [runWorkerLoop, hwj]
                  simp only [hp, ht, hnext, hc1, hth]
                  simp [hc2, updateUpcStatus_twice]
                have hnd2 : (((updateUpcStatus w.items nextUpc.rowId UpcStatus.PENDING
                    now).map fun u => u.rowId)).Nodup := by
                  rw [updateUpcStatus_rowIds]
                  exact hnd
                have hinv2 : invB
                    { job := some job
                      items := updateUpcStatus w.items nextUpc.rowId UpcStatus.PENDING now
                      results := (processUpc (oracles k).searchO (oracles k).productO now
                        { items := w.items, results := w.results } nextUpc).2.results } =
                    true := by
                  simp [invB, hcnt, hjp]
                have hrec := ih (k + 1) (cc + 1) (ce + 1) _ hnd2 hinv2
                refine ⟨fun hexit => ?_, fun hexit => ?_⟩
                · rw [hloop] at hexit ⊢
                  exact hrec.1 hexit
                · rw [hloop] at hexit ⊢
                  exact hrec.2 hexit
            · -- terminal outcome
              by_cases hfail : (processUpc (oracles k).searchO (oracles k).productO now
                  { items := w.items, results := w.results } nextUpc).1.status =
                  RStatus.FAILED
              · by_cases hth : ce + 1 ≥ 10
                · have hloop : runWorkerLoop oracles now (f + 1) k cc ce w =
                      ({ job := some (updateJobStatus job JobStatus.PAUSED
                           (some (tooManyErrorsMessage (ce + 1))) now).2
                         items := (processUpc (oracles k).searchO (oracles k).productO now
                           { items := w.items, results := w.results } nextUpc).2.items
                         results := (processUpc (oracles k).searchO (oracles k).productO now
                           { items := w.items, results := w.results } nextUpc).2.results },
                       ExitReason.errorThreshold,
                       [⟨RStatus.FAILED, cc, ce, cc, ce + 1⟩]) := by
                    rw [runWorkerLoop, hwj]
                    simp only [hp, ht, hnext, hc1, hfail, hth]
                    simp
                  have hcnt : countTerminal
                      (updateUpcStatus w.items nextUpc.rowId UpcStatus.FAILED now) =
                      countTerminal w.items + 1 := by
                    rw [countTerminal_update w.items nextUpc.rowId UpcStatus.FAILED now
                      hnd nextUpc hmemu.1 rfl hnt]
                    rfl
                  refine ⟨fun hexit => ?_, fun _ => ?_⟩
                  · exfalso
                    apply hexit
                    rw [hloop]
                  · refine ⟨(updateJobStatus job JobStatus.PAUSED
                      (some (tooManyErrorsMessage (ce + 1))) now).2, by rw [hloop], ?_⟩
                    rw [hloop]
                    simp only [updateJobStatus_processed, hjp]
                    rw [hc2]
                    simp only [hfail, rstatusToUpc]
                    exact hcnt.symm
                · have hloop : runWorkerLoop oracles now (f + 1) k cc ce w =
                      ((runWorkerLoop oracles now f (k + 1) cc (ce + 1)
                          (progressWorld oracles k now w job nextUpc)).1,
                       (runWorkerLoop oracles now f (k + 1) cc (ce + 1)
                          (progressWorld oracles k now w job nextUpc)).2.1,
                       ⟨RStatus.FAILED, cc, ce, cc, ce + 1⟩ ::
                         (runWorkerLoop oracles now f (k + 1) cc (ce + 1)
                            (progressWorld oracles k now w job nextUpc)).2.2) := by
                    rw [runWorkerLoop, hwj]
                    simp only [hp, ht, hnext, hc1, hfail, hth]
                    simp [progressWorld]
                  have hnd2 : (((progressWorld oracles k now w job nextUpc).items.map
                      fun u => u.rowId)).Nodup := by
                    simp only [progressWorld]
                    rw [hc2, updateUpcStatus_rowIds]
                    exact hnd
                  have hinv2 : invB (progressWorld oracles k now w job nextUpc) = true := by
                    simp [progressWorld, invB, updateJobProgress_processed, stats_sum]
                  have hrec := ih (k + 1) cc (ce + 1) _ hnd2 hinv2
                  refine ⟨fun hexit => ?_, fun hexit => ?_⟩
                  · rw [hloop] at hexit ⊢
                    exact hrec.1 hexit
                  · rw [hloop] at hexit ⊢
                    exact hrec.2 hexit
              · have hloop : runWorkerLoop oracles now (f + 1) k cc ce w =
                    ((runWorkerLoop oracles now f (k + 1) 0 0
                        (progressWorld oracles k now w job nextUpc)).1,
                     (runWorkerLoop oracles now f (k + 1) 0 0
                        (progressWorld oracles k now w job nextUpc)).2.1,
                     ⟨(processUpc (oracles k).searchO (oracles k).productO now
                         { items := w.items, results := w.results } nextUpc).1.status,
                       cc, ce, 0, 0⟩ ::
                       (runWorkerLoop oracles now f (k + 1) 0 0
                          (progressWorld oracles k now w job nextUpc)).2.2) := by
                  rw [runWorkerLoop, hwj]
                  simp only [hp, ht, hnext, hc1, hfail]
                  simp [progressWorld]
                have hnd2 : (((progressWorld oracles k now w job nextUpc).items.map
                    fun u => u.rowId)).Nodup := by
                  simp only [progressWorld]
                  rw [hc2, updateUpcStatus_rowIds]
                  exact hnd
                have hinv2 : invB (progressWorld oracles k now w job nextUpc) = true := by
                  simp [progressWorld, invB, updateJobProgress_processed, stats_sum]
                have hrec := ih (k + 1) 0 0 _ hnd2 hinv2
                refine ⟨fun hexit => ?_, fun hexit => ?_⟩
                · rw [hloop] at hexit ⊢
                  exact hrec.1 hexit
                · rw [hloop] at hexit ⊢
                  exact hrec.2 hexit

/-- C2 witness: a run that exits through the completion path preserves
the progress invariant. -/
theorem claim_C2_witness :
    invB (runWorkerLoop (fun _ => blockedOracle) 5 3 0 0 0 sampleWorld1).1 = true :=
  (claim_C2 (fun _ => blockedOracle) 5 3 0 0 0 sampleWorld1 (by decide) (by decide)).1
    (by decide)
